import Mathlib

/-!
# Verification of the LoRa mesh dashboard bridges

Shallow embedding of the telemetry state aggregator implemented by
`desktop_dashboard/serial_bridge.py` and
`desktop_dashboard/simulation_bridge.py`, together with proofs of the
stated properties of the node state store, topology cache, liveness
sweep, history rings, upload rate limiter and fan-out broadcaster.

Python dicts are embedded as insertion-ordered association lists
(`JMap`); an absent key is `none`.  Timestamps and JSON numbers are
embedded as rationals.
-/

set_option autoImplicit false

universe u

/-- Insertion-ordered map from node identifiers to values, mirroring a
Python `dict` keyed by `int`. -/
abbrev JMap (α : Type u) : Type u := List (Nat × α)

namespace JMap

variable {α : Type u}

/-- `m.get(k)` / `k in m`: first (and, for maps built by `insert`, only)
binding of key `k`. -/
def lookup : JMap α → Nat → Option α
  | [], _ => none
  | (k', v) :: rest, k => if k' = k then some v else lookup rest k

/-- `m[k] = v`: overwrite in place when the key exists (Python dicts keep
the original insertion position), append otherwise. -/
def insert : JMap α → Nat → α → JMap α
  | [], k, v => [(k, v)]
  | (k', v') :: rest, k, v =>
    if k' = k then (k, v) :: rest else (k', v') :: insert rest k v

/-- `m.get(k, d)`. -/
def getD (m : JMap α) (k : Nat) (d : α) : α := (m.lookup k).getD d

/-- `list(m.keys())`. -/
def keys (m : JMap α) : List Nat := m.map Prod.fst

end JMap

/-- The bounded-ring append used for the topology and packet history:
`l.append(x)` followed by `if len(l) > cap: l = l[-cap:]`. -/
def appendTrim {α : Type u} (cap : Nat) (l : List α) (x : α) : List α :=
  if (l ++ [x]).length > cap then (l ++ [x]).drop ((l ++ [x]).length - cap) else l ++ [x]

/-- Timestamps (`time.time()`) and JSON numbers. -/
abbrev Time := ℚ

/-- A topology edge as built by `get_topology_data` in either bridge:
`\x7bfrom: nodeId, to: parent, rssi\x7d`.  `src`/`dst` stand for the JSON
keys `from`/`to` (`from` is a Lean keyword). -/
structure Edge where
  src : Nat
  dst : Nat
  rssi : ℚ
deriving DecidableEq

namespace Serial

/-- One decoded JSON object read from the serial link
(`serial_bridge.py`).  Each field is `some v` when the key is present
and `none` when absent; `type` is `data.get('type', 'unknown')`. -/
structure MeshEvent where
  type : String
  nodeId : Option Nat
  temp : Option ℚ
  humidity : Option ℚ
  pressure : Option ℚ
  lat : Option ℚ
  lng : Option ℚ
  satellites : Option ℚ
  rssi : Option ℚ
  hopDistance : Option ℚ
  meshSenderId : Option Nat
  timeSource : Option String
  neighborCount : Option ℚ
deriving DecidableEq

/-- A `nodes_data` entry of `serial_bridge.py`: the spread `{**data}`
plus the keys `lastUpdate`, `online`, `messageCount` (and `offlineSince`,
written only by the offline sweep). -/
structure NodeRecord where
  data : MeshEvent
  lastUpdate : Time
  online : Bool
  offlineSince : Option Time
  messageCount : Nat
deriving DecidableEq

/-- A `network_topology` entry built by `update_topology` in
`serial_bridge.py`. -/
structure TopoRecord where
  nodeId : Nat
  parentNode : Nat
  hopDistance : ℚ
  rssi : ℚ
  timeSource : String
  online : Bool
  lastSeen : Time
  lat : ℚ
  lng : ℚ
  temp : Option ℚ
  humidity : Option ℚ
  satellites : ℚ
  neighborCount : ℚ
deriving DecidableEq

/-- A `topology_history` entry (`save_topology_snapshot`); the display
string `datetime` is omitted. -/
structure Snapshot where
  timestamp : Time
  nodes : JMap TopoRecord
deriving DecidableEq

/-- The `topology_cache` dictionary built by `get_topology_data`. -/
structure TopoCache where
  nodes : List TopoRecord
  edges : List Edge
  historyCount : Nat
deriving DecidableEq

/-- The global mutable state of `serial_bridge.py` (the WebSocket client
registry and raw serial plumbing are modelled separately). -/
structure State where
  nodes_data : JMap NodeRecord
  gateway_data : Option MeshEvent
  mesh_stats : Option MeshEvent
  node_last_seen : JMap Time
  node_message_count : JMap Nat
  network_topology : JMap TopoRecord
  topology_cache : Option TopoCache
  topology_cache_dirty : Bool
  topology_history : List Snapshot
  last_topology_snapshot_time : Time
  last_thingspeak_upload : JMap Time
deriving DecidableEq

def GATEWAY_NODE_ID : Nat := 1
def NODE_OFFLINE_TIMEOUT : Time := 90
def THINGSPEAK_UPDATE_INTERVAL : Time := 20
def MAX_TOPOLOGY_HISTORY : Nat := 100

/-- Node ids having a ThingSpeak API key (`THINGSPEAK_API_KEYS`). -/
def THINGSPEAK_NODE_IDS : List Nat := [2, 3, 4, 5]

/-- The initial module-level state of `serial_bridge.py`. -/
def initState : State where
  nodes_data := []
  gateway_data := none
  mesh_stats := none
  node_last_seen := []
  node_message_count := []
  network_topology := []
  topology_cache := none
  topology_cache_dirty := true
  topology_history := []
  last_topology_snapshot_time := 0
  last_thingspeak_upload := []

/-- `update_topology(node_id, data)` of `serial_bridge.py`. -/
def update_topology (st : State) (node_id : Nat) (data : MeshEvent) (now : Time) : State :=
  let parent_node₀ := data.meshSenderId.getD 0
  let hop_distance := data.hopDistance.getD 0
  let rssi := data.rssi.getD (-100)
  let ts₀ := data.timeSource.getD "UNKNOWN"
  let time_source := if ts₀ = "UNKNOWN" then "NONE" else ts₀
  let parent_node :=
    if parent_node₀ = 0 ∨ parent_node₀ = node_id then
      if node_id ≠ GATEWAY_NODE_ID then GATEWAY_NODE_ID else 0
    else parent_node₀
  { st with
    topology_cache_dirty := true
    network_topology := st.network_topology.insert node_id
      { nodeId := node_id
        parentNode := parent_node
        hopDistance := hop_distance
        rssi := rssi
        timeSource := time_source
        online := true
        lastSeen := now
        lat := data.lat.getD 0
        lng := data.lng.getD 0
        temp := data.temp
        humidity := data.humidity
        satellites := data.satellites.getD 0
        neighborCount := data.neighborCount.getD 0 } }

/-- `save_topology_snapshot()` of `serial_bridge.py`: gated to one
capture per 30 seconds, then ring-append with capacity 100. -/
def save_topology_snapshot (st : State) (now : Time) : State :=
  if now - st.last_topology_snapshot_time < 30 then st
  else
    { st with
      last_topology_snapshot_time := now
      topology_history := appendTrim MAX_TOPOLOGY_HISTORY st.topology_history
        { timestamp := now, nodes := st.network_topology } }

/-- The edge list built by `get_topology_data`: one edge per topology
entry whose parent is nonzero and not itself. -/
def build_edges : JMap TopoRecord → List Edge
  | [] => []
  | (node_id, nd) :: rest =>
    (if nd.parentNode > 0 ∧ nd.parentNode ≠ node_id then
      [{ src := node_id, dst := nd.parentNode, rssi := nd.rssi }]
    else []) ++ build_edges rest

/-- `get_topology_data()` of `serial_bridge.py`.  Returns the cache
entry and the updated state (the cached dict's `historyCount` is
refreshed in place even on the cached path). -/
def get_topology_data (st : State) : TopoCache × State :=
  match st.topology_cache, st.topology_cache_dirty with
  | some c, false =>
    let c' := { c with historyCount := st.topology_history.length }
    (c', { st with topology_cache := some c' })
  | _, _ =>
    let c : TopoCache :=
      { nodes := st.network_topology.map Prod.snd
        edges := build_edges st.network_topology
        historyCount := st.topology_history.length }
    (c, { st with topology_cache := some c, topology_cache_dirty := false })

/-- `upload_to_thingspeak(node_id, data)` restricted to its effect on
`last_thingspeak_upload`.  `success` is the outcome of the HTTP request
(`status_code == 200 and text != '0'`; a raised exception is a failed
outcome).  Returns whether an upload was attempted, and the updated
map: only a successful attempt records its time. -/
def upload_to_thingspeak (ts : JMap Time) (node_id : Nat) (now : Time)
    (success : Bool) : Bool × JMap Time :=
  if node_id ∉ THINGSPEAK_NODE_IDS then (false, ts)
  else if now - ts.getD node_id 0 < THINGSPEAK_UPDATE_INTERVAL then (false, ts)
  else if success then (true, ts.insert node_id now)
  else (true, ts)

/-- `process_mesh_data(data)` of `serial_bridge.py` (state mutation
only; the final `broadcast_update()` is modelled separately).
`uploadOk` is the outcome of the ThingSpeak request, if one is made. -/
def process_mesh_data (st : State) (data : MeshEvent) (now : Time) (uploadOk : Bool) : State :=
  if data.type = "node_data" then
    match data.nodeId with
    | some node_id =>
      if node_id ≠ 0 then
        let cnt := st.node_message_count.getD node_id 0 + 1
        let st₁ :=
          { st with
            node_last_seen := st.node_last_seen.insert node_id now
            node_message_count := st.node_message_count.insert node_id cnt
            nodes_data := st.nodes_data.insert node_id
              { data := data, lastUpdate := now, online := true
                offlineSince := none, messageCount := cnt } }
        let st₂ := update_topology st₁ node_id data now
        let st₃ := save_topology_snapshot st₂ now
        { st₃ with
          last_thingspeak_upload :=
            (upload_to_thingspeak st₃.last_thingspeak_upload node_id now uploadOk).2 }
      else st
    | none => st
  else if data.type = "gateway_status" then { st with gateway_data := some data }
  else if data.type = "mesh_stats" then { st with mesh_stats := some data }
  else st

/-- The body of the `check_offline_nodes` loop for one
`(node_id, last_seen)` item: conditionally flips the node's `online`
flag in `nodes_data` and reports whether it changed.  The serial sweep
touches neither `network_topology` nor `topology_cache_dirty`. -/
def sweep_node (now : Time) (nd : JMap NodeRecord) (node_id : Nat)
    (last_seen : Time) : JMap NodeRecord × Bool :=
  if now - last_seen > NODE_OFFLINE_TIMEOUT then
    match nd.lookup node_id with
    | some r =>
      if r.online then
        (nd.insert node_id { r with online := false, offlineSince := some last_seen }, true)
      else (nd, false)
    | none => (nd, false)
  else
    match nd.lookup node_id with
    | some r =>
      if r.online then (nd, false)
      else (nd.insert node_id { r with online := true, offlineSince := none }, true)
    | none => (nd, false)

/-- Fold of `sweep_node` over `list(node_last_seen.items())`,
accumulating `status_changed`. -/
def sweep_fold (now : Time) : List (Nat × Time) → JMap NodeRecord → Bool → JMap NodeRecord × Bool
  | [], nd, ch => (nd, ch)
  | (i, ls) :: rest, nd, ch =>
    let r := sweep_node now nd i ls
    sweep_fold now rest r.1 (ch || r.2)

/-- One iteration of the `check_offline_nodes` background loop of
`serial_bridge.py`: the swept state and the `status_changed` flag. -/
def check_offline_nodes (st : State) (now : Time) : State × Bool :=
  let r := sweep_fold now st.node_last_seen st.nodes_data false
  ({ st with nodes_data := r.1 }, r.2)

end Serial

namespace Sim

/-- The nested `sensors` mapping a simulation event may carry. -/
structure Sensors where
  temperature : Option ℚ
  humidity : Option ℚ
  pressure : Option ℚ
deriving DecidableEq

/-- The nested `position` mapping a simulation event may carry. -/
structure Position where
  x : Option ℚ
  y : Option ℚ
deriving DecidableEq

/-- One decoded JSON event received over UDP
(`simulation_bridge.py`).  `fromKey` and `eventKey` stand for the JSON
keys `from` and `event` (Lean keywords / name clashes). -/
structure SimEvent where
  type : String
  nodeId : Option Nat
  posX : Option ℚ
  posY : Option ℚ
  position : Option Position
  temp : Option ℚ
  humidity : Option ℚ
  pressure : Option ℚ
  sensors : Option Sensors
  rssi : Option ℚ
  snr : Option ℚ
  hopDistance : Option ℚ
  lat : Option ℚ
  lng : Option ℚ
  satellites : Option ℚ
  neighborCount : Option ℚ
  isGateway : Option Bool
  txCount : Option ℚ
  rxCount : Option ℚ
  parentNode : Option Nat
  meshSenderId : Option Nat
  timeSource : Option String
  fromNode : Option Nat
  fromKey : Option Nat
  toNode : Option Nat
  packetType : Option String
  eventKey : Option String
  seq : Option ℚ
deriving DecidableEq

/-- A `nodes_data` entry of `simulation_bridge.py`
(`process_simulation_event`).  The bridge never writes an
`offlineSince` key, so that field is always `none`. -/
structure SimNodeRecord where
  nodeId : Nat
  temp : Option ℚ
  humidity : Option ℚ
  pressure : Option ℚ
  rssi : ℚ
  snr : ℚ
  hopDistance : ℚ
  lat : ℚ
  lng : ℚ
  satellites : ℚ
  lastUpdate : Time
  online : Bool
  offlineSince : Option Time
  messageCount : Nat
  posx : ℚ
  posy : ℚ
  neighborCount : ℚ
  isGateway : Bool
  txCount : ℚ
  rxCount : ℚ
deriving DecidableEq

/-- A `network_topology` entry built by `update_topology` in
`simulation_bridge.py`. -/
structure SimTopoRecord where
  nodeId : Nat
  parentNode : Nat
  hopDistance : ℚ
  rssi : ℚ
  snr : ℚ
  timeSource : String
  online : Bool
  lastSeen : Time
  x : ℚ
  y : ℚ
  lat : ℚ
  lng : ℚ
  temp : Option ℚ
  humidity : Option ℚ
  neighborCount : ℚ
deriving DecidableEq

/-- A `packet_events` entry (`ptype` is the JSON key `type`, either
`sent` or `received`). -/
structure PacketEvent where
  ptype : String
  timestamp : Time
  fromNode : Nat
  toNode : Option Nat
  packetType : String
  rssi : ℚ
  snr : Option ℚ
  seq : ℚ
deriving DecidableEq

/-- The `topology_cache` dictionary of `simulation_bridge.py`. -/
structure SimTopoCache where
  nodes : List SimTopoRecord
  edges : List Edge
  packetEvents : List PacketEvent
deriving DecidableEq

/-- The global mutable state of `simulation_bridge.py` (console line
buffer and WebSocket registry are modelled separately). -/
structure State where
  nodes_data : JMap SimNodeRecord
  mesh_stats_sent : Nat
  mesh_stats_received : Nat
  mesh_stats_dropped : Nat
  node_last_seen : JMap Time
  node_message_count : JMap Nat
  network_topology : JMap SimTopoRecord
  topology_cache : Option SimTopoCache
  topology_cache_dirty : Bool
  packet_events : List PacketEvent
deriving DecidableEq

def GATEWAY_NODE_ID : Nat := 1
def NODE_OFFLINE_TIMEOUT : Time := 10
def MAX_PACKET_EVENTS : Nat := 100

/-- The initial module-level state of `simulation_bridge.py`. -/
def initState : State where
  nodes_data := []
  mesh_stats_sent := 0
  mesh_stats_received := 0
  mesh_stats_dropped := 0
  node_last_seen := []
  node_message_count := []
  network_topology := []
  topology_cache := none
  topology_cache_dirty := true
  packet_events := []

/-- Position resolution of `process_simulation_event`: flat
`posX`/`posY` keys win; otherwise the nested `position` mapping with
default `(0, 0)`. -/
def event_position (event : SimEvent) : ℚ × ℚ :=
  match event.posX with
  | some px => (px, event.posY.getD 0)
  | none =>
    ((event.position.bind Position.x).getD 0, (event.position.bind Position.y).getD 0)

/-- `update_topology(node_id, data)` of `simulation_bridge.py`. -/
def update_topology (st : State) (node_id : Nat) (data : SimEvent) (now : Time) : State :=
  let xy : ℚ × ℚ :=
    match data.posX with
    | some px => (px, data.posY.getD 0)
    | none =>
      ((data.position.bind Position.x).getD ((node_id : ℚ) * 100),
       (data.position.bind Position.y).getD 0)
  let hop_distance := data.hopDistance.getD 0
  let parent_node₀ := data.parentNode.getD (data.meshSenderId.getD 0)
  let parent_node :=
    if parent_node₀ = 0 ∧ hop_distance > 0 ∧ node_id ≠ GATEWAY_NODE_ID then GATEWAY_NODE_ID
    else parent_node₀
  { st with
    topology_cache_dirty := true
    network_topology := st.network_topology.insert node_id
      { nodeId := node_id
        parentNode := parent_node
        hopDistance := hop_distance
        rssi := data.rssi.getD (-50)
        snr := data.snr.getD 10
        timeSource := data.timeSource.getD "SIM"
        online := true
        lastSeen := now
        x := xy.1
        y := xy.2
        lat := data.lat.getD 0
        lng := data.lng.getD 0
        temp := data.temp.orElse fun _ => data.sensors.bind Sensors.temperature
        humidity := data.humidity.orElse fun _ => data.sensors.bind Sensors.humidity
        neighborCount := data.neighborCount.getD 0 } }

/-- The edge list built by the simulation `get_topology_data`. -/
def build_edges : JMap SimTopoRecord → List Edge
  | [] => []
  | (node_id, nd) :: rest =>
    (if nd.parentNode > 0 ∧ nd.parentNode ≠ node_id then
      [{ src := node_id, dst := nd.parentNode, rssi := nd.rssi }]
    else []) ++ build_edges rest

/-- `get_topology_data()` of `simulation_bridge.py`; the rebuilt cache
captures the last 20 packet events. -/
def get_topology_data (st : State) : SimTopoCache × State :=
  match st.topology_cache, st.topology_cache_dirty with
  | some c, false => (c, st)
  | _, _ =>
    let c : SimTopoCache :=
      { nodes := st.network_topology.map Prod.snd
        edges := build_edges st.network_topology
        packetEvents := st.packet_events.drop (st.packet_events.length - 20) }
    (c, { st with topology_cache := some c, topology_cache_dirty := false })

/-- The `nodes_data` entry built for one applied event by
`process_simulation_event` (`cnt` is the already-incremented message
count). -/
def mk_node_record (event : SimEvent) (now : Time) (node_id : Nat) (cnt : Nat) :
    SimNodeRecord :=
  let pos := event_position event
  { nodeId := node_id
    temp := event.temp.orElse fun _ => event.sensors.bind Sensors.temperature
    humidity := event.humidity.orElse fun _ => event.sensors.bind Sensors.humidity
    pressure := event.pressure.orElse fun _ => event.sensors.bind Sensors.pressure
    rssi := event.rssi.getD (-50)
    snr := event.snr.getD 10
    hopDistance := event.hopDistance.getD 0
    lat := event.lat.getD 0
    lng := event.lng.getD 0
    satellites := event.satellites.getD 0
    lastUpdate := now
    online := true
    offlineSince := none
    messageCount := cnt
    posx := pos.1
    posy := pos.2
    neighborCount := event.neighborCount.getD 0
    isGateway := event.isGateway.getD (node_id = 1)
    txCount := event.txCount.getD 0
    rxCount := event.rxCount.getD 0 }

/-- `process_simulation_event(event)` of `simulation_bridge.py` (state
mutation only; console logging and the broadcasts are modelled
separately). -/
def process_simulation_event (st : State) (event : SimEvent) (now : Time) : State :=
  if event.type = "node_status" ∨ event.type = "node_data" then
    match event.nodeId with
    | some node_id =>
      if node_id ≠ 0 then
        let cnt := st.node_message_count.getD node_id 0 + 1
        let st₁ :=
          { st with
            node_last_seen := st.node_last_seen.insert node_id now
            node_message_count := st.node_message_count.insert node_id cnt
            nodes_data := st.nodes_data.insert node_id (mk_node_record event now node_id cnt) }
        update_topology st₁ node_id event now
      else st
    | none => st
  else if event.type = "packet_sent" then
    { st with
      mesh_stats_sent := st.mesh_stats_sent + 1
      packet_events := appendTrim MAX_PACKET_EVENTS st.packet_events
        { ptype := "sent"
          timestamp := now
          fromNode := event.fromNode.getD (event.nodeId.getD 0)
          toNode := none
          packetType := event.packetType.getD (event.eventKey.getD "UNKNOWN")
          rssi := event.rssi.getD (-50)
          snr := none
          seq := event.seq.getD 0 } }
  else if event.type = "packet_received" then
    { st with
      mesh_stats_received := st.mesh_stats_received + 1
      packet_events := appendTrim MAX_PACKET_EVENTS st.packet_events
        { ptype := "received"
          timestamp := now
          fromNode := event.fromNode.getD (event.fromKey.getD 0)
          toNode := some (event.toNode.getD (event.nodeId.getD 0))
          packetType := event.packetType.getD (event.eventKey.getD "UNKNOWN")
          rssi := event.rssi.getD (-50)
          snr := some (event.snr.getD 0)
          seq := event.seq.getD 0 } }
  else if event.type = "packet_dropped" then
    { st with mesh_stats_dropped := st.mesh_stats_dropped + 1 }
  else st

/-- `network_topology[node_id]['online'] = b`, guarded by
`node_id in network_topology`. -/
def set_topo_online (topo : JMap SimTopoRecord) (node_id : Nat) (b : Bool) :
    JMap SimTopoRecord :=
  match topo.lookup node_id with
  | some t => topo.insert node_id { t with online := b }
  | none => topo

/-- Accumulator of the simulation offline sweep: the two mutated maps,
the `topology_cache_dirty` flag and `status_changed`. -/
structure SweepAcc where
  nd : JMap SimNodeRecord
  topo : JMap SimTopoRecord
  dirty : Bool
  changed : Bool

/-- The body of the simulation `check_offline_nodes` loop for one
`(node_id, last_seen)` item: a flip updates both maps and sets the
dirty flag. -/
def sweep_node (now : Time) (acc : SweepAcc) (node_id : Nat) (last_seen : Time) : SweepAcc :=
  if now - last_seen > NODE_OFFLINE_TIMEOUT then
    match acc.nd.lookup node_id with
    | some r =>
      if r.online then
        { nd := acc.nd.insert node_id { r with online := false }
          topo := set_topo_online acc.topo node_id false
          dirty := true
          changed := true }
      else acc
    | none => acc
  else
    match acc.nd.lookup node_id with
    | some r =>
      if r.online then acc
      else
        { nd := acc.nd.insert node_id { r with online := true }
          topo := set_topo_online acc.topo node_id true
          dirty := true
          changed := true }
    | none => acc

/-- Fold of the simulation `sweep_node` over
`list(node_last_seen.items())`. -/
def sweep_fold (now : Time) : List (Nat × Time) → SweepAcc → SweepAcc
  | [], acc => acc
  | (i, ls) :: rest, acc => sweep_fold now rest (sweep_node now acc i ls)

/-- One iteration of the simulation `check_offline_nodes` background
loop: the swept state and the `status_changed` flag. -/
def check_offline_nodes (st : State) (now : Time) : State × Bool :=
  let acc := sweep_fold now st.node_last_seen
    { nd := st.nodes_data, topo := st.network_topology
      dirty := st.topology_cache_dirty, changed := false }
  ({ st with
      nodes_data := acc.nd
      network_topology := acc.topo
      topology_cache_dirty := acc.dirty }, acc.changed)

end Sim

namespace Broadcast

/-- The send loop of `broadcast_update` / `broadcast_serial_line` in
both bridges: attempts delivery to every subscriber in turn; `fails c`
means the send to `c` raises `ConnectionClosed`.  Returns the
subscribers that received the message and the `disconnected` set. -/
def sendAll (fails : Nat → Bool) : List Nat → List Nat × List Nat
  | [] => ([], [])
  | ws :: rest =>
    let r := sendAll fails rest
    if fails ws then (r.1, ws :: r.2) else (ws :: r.1, r.2)

/-- A full broadcast sweep: deliver to every registered subscriber, then
`websocket_clients.difference_update(disconnected)`.  Returns the
subscribers that received the message and the registry after the
sweep. -/
def broadcast_update (clients : List Nat) (fails : Nat → Bool) : List Nat × List Nat :=
  let r := sendAll fails clients
  (r.1, clients.filter fun c => !r.2.contains c)

end Broadcast

namespace Serial

/-- Fold `process_mesh_data` over a sequence of
`(event, arrival time, ThingSpeak outcome)` triples. -/
def applyEvents (st : State) : List (MeshEvent × Time × Bool) → State
  | [] => st
  | p :: rest => applyEvents (process_mesh_data st p.1 p.2.1 p.2.2) rest

/-- The subsequence of a trace that `process_mesh_data` applies for node
`i` (for `i ≠ 0` these are exactly the non-dropped events of node `i`). -/
def appliedFor (i : Nat) (evs : List (MeshEvent × Time × Bool)) :
    List (MeshEvent × Time × Bool) :=
  evs.filter fun p => decide (p.1.type = "node_data" ∧ p.1.nodeId = some i)

/-- What one offline-sweep iteration does to the `nodes_data` entry of
the visited node, as a function of its previous binding. -/
def sweep_result (now last_seen : Time) : Option NodeRecord → Option NodeRecord
  | some r =>
    if now - last_seen > NODE_OFFLINE_TIMEOUT then
      if r.online then some { r with online := false, offlineSince := some last_seen }
      else some r
    else
      if r.online then some r
      else some { r with online := true, offlineSince := none }
  | none => none

/-- A serial event with every optional key absent. -/
def exEvent : MeshEvent where
  type := "node_data"
  nodeId := none
  temp := none
  humidity := none
  pressure := none
  lat := none
  lng := none
  satellites := none
  rssi := none
  hopDistance := none
  meshSenderId := none
  timeSource := none
  neighborCount := none

/-- A sample `network_topology` entry for node 2. -/
def exTopo2 : TopoRecord where
  nodeId := 2
  parentNode := 1
  hopDistance := 1
  rssi := -60
  timeSource := "NONE"
  online := true
  lastSeen := 0
  lat := 0
  lng := 0
  temp := none
  humidity := none
  satellites := 0
  neighborCount := 0

/-- A sample `nodes_data` entry for node 2, online, last seen at 0. -/
def exRecord2 : NodeRecord where
  data := { exEvent with nodeId := some 2 }
  lastUpdate := 0
  online := true
  offlineSince := none
  messageCount := 1

/-- A sample serial state: node 2 online, last seen at time 0, topology
cache clean. -/
def exState : State :=
  { initState with
    nodes_data := [(2, exRecord2)]
    node_last_seen := [(2, 0)]
    node_message_count := [(2, 1)]
    network_topology := [(2, exTopo2)]
    topology_cache := some { nodes := [exTopo2], edges := [⟨2, 1, -60⟩], historyCount := 0 }
    topology_cache_dirty := false }

end Serial

namespace Sim

/-- Fold `process_simulation_event` over a sequence of
`(event, arrival time)` pairs. -/
def applyEvents (st : State) : List (SimEvent × Time) → State
  | [] => st
  | p :: rest => applyEvents (process_simulation_event st p.1 p.2) rest

/-- The subsequence of a trace that `process_simulation_event` applies
for node `i`. -/
def appliedFor (i : Nat) (evs : List (SimEvent × Time)) : List (SimEvent × Time) :=
  evs.filter fun p =>
    decide ((p.1.type = "node_status" ∨ p.1.type = "node_data") ∧ p.1.nodeId = some i)

/-- What one simulation offline-sweep iteration does to the
`nodes_data` entry of the visited node. -/
def sweep_result (now last_seen : Time) : Option SimNodeRecord → Option SimNodeRecord
  | some r =>
    if now - last_seen > NODE_OFFLINE_TIMEOUT then
      if r.online then some { r with online := false } else some r
    else
      if r.online then some r else some { r with online := true }
  | none => none

/-- A simulation event with every optional key absent. -/
def exEvent : SimEvent where
  type := "node_data"
  nodeId := none
  posX := none
  posY := none
  position := none
  temp := none
  humidity := none
  pressure := none
  sensors := none
  rssi := none
  snr := none
  hopDistance := none
  lat := none
  lng := none
  satellites := none
  neighborCount := none
  isGateway := none
  txCount := none
  rxCount := none
  parentNode := none
  meshSenderId := none
  timeSource := none
  fromNode := none
  fromKey := none
  toNode := none
  packetType := none
  eventKey := none
  seq := none

/-- A sample simulation `nodes_data` entry for node 2, online, last
seen at 0. -/
def exRecord2 : SimNodeRecord where
  nodeId := 2
  temp := none
  humidity := none
  pressure := none
  rssi := -50
  snr := 10
  hopDistance := 1
  lat := 0
  lng := 0
  satellites := 0
  lastUpdate := 0
  online := true
  offlineSince := none
  messageCount := 1
  posx := 200
  posy := 0
  neighborCount := 0
  isGateway := false
  txCount := 0
  rxCount := 0

/-- A sample simulation topology entry for node 2. -/
def exTopo2 : SimTopoRecord where
  nodeId := 2
  parentNode := 1
  hopDistance := 1
  rssi := -50
  snr := 10
  timeSource := "SIM"
  online := true
  lastSeen := 0
  x := 200
  y := 0
  lat := 0
  lng := 0
  temp := none
  humidity := none
  neighborCount := 0

/-- A sample simulation state: node 2 online, last seen at time 0. -/
def exState : State :=
  { initState with
    nodes_data := [(2, exRecord2)]
    node_last_seen := [(2, 0)]
    node_message_count := [(2, 1)]
    network_topology := [(2, exTopo2)]
    topology_cache_dirty := false }

end Sim
/-- An event for node 5 carrying both position conventions and both
sensor conventions. -/
def Sim.exEvent9 : Sim.SimEvent :=
  { Sim.exEvent with
    nodeId := some 5
    posX := some 300
    posY := some 0
    position := some { x := some 310, y := some 5 }
    temp := some 72
    sensors := some { temperature := some 65, humidity := some 40, pressure := none } }

/-- A two-event trace for node 2 at times 5 and 9 (serial bridge). -/
def Serial.exTrace : List (Serial.MeshEvent × Time × Bool) :=
  [({ Serial.exEvent with nodeId := some 2 }, 5, false),
   ({ Serial.exEvent with nodeId := some 2 }, 9, false)]

/-- A two-event trace for node 2 at times 5 and 9 (simulation bridge). -/
def Sim.exTrace : List (Sim.SimEvent × Time) :=
  [({ Sim.exEvent with nodeId := some 2 }, 5),
   ({ Sim.exEvent with nodeId := some 2 }, 9)]

namespace JMap

variable {α : Type u}

@[simp] theorem lookup_nil (k : Nat) : (([] : JMap α).lookup k) = none := rfl

@[simp] theorem lookup_cons (k' : Nat) (v : α) (rest : JMap α) (k : Nat) :
    lookup ((k', v) :: rest) k = if k' = k then some v else lookup rest k := rfl

@[simp] theorem lookup_insert_self (m : JMap α) (k : Nat) (v : α) :
    (m.insert k v).lookup k = some v := by
  induction m with
  | nil => simp [insert, lookup]
  | cons p rest ih =>
    obtain ⟨k', v'⟩ := p
    by_cases h : k' = k <;> simp [insert, lookup, h, ih]

theorem lookup_insert_ne (m : JMap α) {k k' : Nat} (v : α) (h : k ≠ k') :
    (m.insert k v).lookup k' = m.lookup k' := by
  induction m with
  | nil => simp [insert, lookup, h]
  | cons p rest ih =>
    obtain ⟨k₀, v₀⟩ := p
    by_cases h₀ : k₀ = k
    · subst h₀
      simp [insert, lookup, h]
    · simp only [insert, if_neg h₀, lookup_cons]
      by_cases h₁ : k₀ = k' <;> simp [h₁, ih]

theorem lookup_insert (m : JMap α) (k k' : Nat) (v : α) :
    (m.insert k v).lookup k' = if k = k' then some v else m.lookup k' := by
  by_cases h : k = k'
  · subst h; simp
  · simp [h, lookup_insert_ne m v h]

end JMap

theorem appendTrim_length_le {α : Type u} (cap : Nat) (l : List α) (x : α)
    (h : l.length ≤ cap) : (appendTrim cap l x).length ≤ cap := by
  unfold appendTrim
  by_cases hgt : (l ++ [x]).length > cap
  · simp only [if_pos hgt, List.length_drop]
    omega
  · simp only [if_neg hgt]
    simp only [List.length_append, List.length_cons, List.length_nil] at hgt ⊢
    omega

theorem appendTrim_isDropOfAppend {α : Type u} (cap : Nat) (l : List α) (x : α) :
    ∃ k, appendTrim cap l x = (l ++ [x]).drop k := by
  unfold appendTrim
  by_cases hgt : (l ++ [x]).length > cap
  · exact ⟨(l ++ [x]).length - cap, by rw [if_pos hgt]⟩
  · exact ⟨0, by rw [if_neg hgt, List.drop_zero]⟩

theorem appendTrim_full {α : Type u} (cap : Nat) (l : List α) (x : α)
    (h : l.length = cap) (hcap : 0 < cap) : appendTrim cap l x = l.tail ++ [x] := by
  unfold appendTrim
  have hlen : (l ++ [x]).length = cap + 1 := by simp [h]
  rw [hlen, if_pos (Nat.lt_succ_self cap), Nat.add_sub_cancel_left]
  have h1 : 1 ≤ l.length := by omega
  rw [List.drop_append_of_le_length h1, List.drop_one]

namespace Serial

theorem get_topology_data_idem (st : State) :
    get_topology_data (get_topology_data st).2 = get_topology_data st := by
  obtain ⟨nd, gd, ms, ls, mc, topo, cache, dirty, hist, snap, ts⟩ := st
  cases cache <;> cases dirty <;> rfl

@[simp] theorem update_topology_nodes_data (st : State) (i : Nat) (d : MeshEvent) (now : Time) :
    (update_topology st i d now).nodes_data = st.nodes_data := rfl

@[simp] theorem update_topology_node_last_seen (st : State) (i : Nat) (d : MeshEvent) (now : Time) :
    (update_topology st i d now).node_last_seen = st.node_last_seen := rfl

@[simp] theorem update_topology_node_message_count (st : State) (i : Nat) (d : MeshEvent) (now : Time) :
    (update_topology st i d now).node_message_count = st.node_message_count := rfl

@[simp] theorem update_topology_dirty (st : State) (i : Nat) (d : MeshEvent) (now : Time) :
    (update_topology st i d now).topology_cache_dirty = true := rfl

@[simp] theorem update_topology_last_thingspeak (st : State) (i : Nat) (d : MeshEvent) (now : Time) :
    (update_topology st i d now).last_thingspeak_upload = st.last_thingspeak_upload := rfl

@[simp] theorem save_nodes_data (st : State) (now : Time) :
    (save_topology_snapshot st now).nodes_data = st.nodes_data := by
  unfold save_topology_snapshot; split <;> rfl

@[simp] theorem save_node_last_seen (st : State) (now : Time) :
    (save_topology_snapshot st now).node_last_seen = st.node_last_seen := by
  unfold save_topology_snapshot; split <;> rfl

@[simp] theorem save_node_message_count (st : State) (now : Time) :
    (save_topology_snapshot st now).node_message_count = st.node_message_count := by
  unfold save_topology_snapshot; split <;> rfl

@[simp] theorem save_network_topology (st : State) (now : Time) :
    (save_topology_snapshot st now).network_topology = st.network_topology := by
  unfold save_topology_snapshot; split <;> rfl

@[simp] theorem save_dirty (st : State) (now : Time) :
    (save_topology_snapshot st now).topology_cache_dirty = st.topology_cache_dirty := by
  unfold save_topology_snapshot; split <;> rfl

@[simp] theorem save_last_thingspeak (st : State) (now : Time) :
    (save_topology_snapshot st now).last_thingspeak_upload = st.last_thingspeak_upload := by
  unfold save_topology_snapshot; split <;> rfl

/-- Characterization of the applied-event branch of `process_mesh_data`
on the three per-node maps. -/
theorem process_applied (st : State) (d : MeshEvent) (now : Time) (u : Bool) (i : Nat)
    (ht : d.type = "node_data") (hid : d.nodeId = some i) (hi : i ≠ 0) :
    (process_mesh_data st d now u).nodes_data =
      st.nodes_data.insert i
        { data := d, lastUpdate := now, online := true, offlineSince := none
          messageCount := st.node_message_count.getD i 0 + 1 } ∧
    (process_mesh_data st d now u).node_last_seen = st.node_last_seen.insert i now ∧
    (process_mesh_data st d now u).node_message_count =
      st.node_message_count.insert i (st.node_message_count.getD i 0 + 1) ∧
    (process_mesh_data st d now u).topology_cache_dirty = true := by
  simp only [process_mesh_data, ht, hid, if_true, reduceCtorEq, ne_eq, hi,
    not_false_eq_true, if_pos]
  refine ⟨?_, ?_, ?_, ?_⟩ <;> simp

/-- Events that are not an applied `node_data` event for node `i` leave
node `i`'s bindings in all three per-node maps unchanged. -/
theorem process_preserves (st : State) (d : MeshEvent) (now : Time) (u : Bool) (i : Nat)
    (h : d.type ≠ "node_data" ∨ d.nodeId ≠ some i) :
    (process_mesh_data st d now u).nodes_data.lookup i = st.nodes_data.lookup i ∧
    (process_mesh_data st d now u).node_last_seen.lookup i = st.node_last_seen.lookup i ∧
    (process_mesh_data st d now u).node_message_count.lookup i =
      st.node_message_count.lookup i := by
  by_cases ht : d.type = "node_data"
  · replace h : d.nodeId ≠ some i := h.resolve_left (by simp [ht])
    cases hid : d.nodeId with
    | none => simp [process_mesh_data, ht, hid]
    | some j =>
      have hj : j ≠ i := by rintro rfl; exact h hid
      by_cases hj0 : j = 0
      · simp [process_mesh_data, ht, hid, hj0]
      · simp only [process_mesh_data, ht, hid, if_true, ne_eq, hj0, not_false_eq_true,
          if_pos]
        refine ⟨?_, ?_, ?_⟩ <;> simp [JMap.lookup_insert_ne _ _ hj]
  · by_cases hg : d.type = "gateway_status"
    · simp [process_mesh_data, ht, hg]
    · by_cases hm : d.type = "mesh_stats"
      · simp [process_mesh_data, ht, hg, hm]
      · simp [process_mesh_data, ht, hg, hm]

theorem applyEvents_append (st : State) (l : List (MeshEvent × Time × Bool))
    (p : MeshEvent × Time × Bool) :
    applyEvents st (l ++ [p]) =
      process_mesh_data (applyEvents st l) p.1 p.2.1 p.2.2 := by
  induction l generalizing st with
  | nil => rfl
  | cons q rest ih => simp [applyEvents, ih]

end Serial

namespace Sim

theorem sim_get_topology_data_idem (st : State) :
    get_topology_data (get_topology_data st).2 = get_topology_data st := by
  obtain ⟨nd, s₁, s₂, s₃, ls, mc, topo, cache, dirty, pe⟩ := st
  cases cache <;> cases dirty <;> rfl

@[simp] theorem sim_update_topology_nodes_data (st : State) (i : Nat) (d : SimEvent) (now : Time) :
    (update_topology st i d now).nodes_data = st.nodes_data := rfl

@[simp] theorem sim_update_topology_node_last_seen (st : State) (i : Nat) (d : SimEvent) (now : Time) :
    (update_topology st i d now).node_last_seen = st.node_last_seen := rfl

@[simp] theorem sim_update_topology_node_message_count (st : State) (i : Nat) (d : SimEvent) (now : Time) :
    (update_topology st i d now).node_message_count = st.node_message_count := rfl

@[simp] theorem sim_update_topology_dirty (st : State) (i : Nat) (d : SimEvent) (now : Time) :
    (update_topology st i d now).topology_cache_dirty = true := rfl

@[simp] theorem update_topology_packet_events (st : State) (i : Nat) (d : SimEvent) (now : Time) :
    (update_topology st i d now).packet_events = st.packet_events := rfl

end Sim

namespace Broadcast

theorem sendAll_eq (fails : Nat → Bool) (l : List Nat) :
    sendAll fails l = (l.filter (fun c => !fails c), l.filter fails) := by
  induction l with
  | nil => rfl
  | cons ws rest ih =>
    simp only [sendAll, ih]
    cases h : fails ws <;> simp [List.filter_cons, h]

theorem contains_true_iff (l : List Nat) (a : Nat) : l.contains a = true ↔ a ∈ l := by
  induction l with
  | nil => simp
  | cons b t ih =>
    simp [List.contains_cons, Bool.or_eq_true, beq_iff_eq, List.mem_cons, ih]

theorem broadcast_update_eq (clients : List Nat) (fails : Nat → Bool) :
    broadcast_update clients fails =
      (clients.filter (fun c => !fails c), clients.filter (fun c => !fails c)) := by
  unfold broadcast_update
  rw [sendAll_eq]
  refine congrArg _ ?_
  refine List.filter_congr ?_
  intro c hc
  show (!(clients.filter fails).contains c) = (!fails c)
  cases h : fails c
  · cases hcon : (clients.filter fails).contains c with
    | false => rfl
    | true =>
      rw [contains_true_iff, List.mem_filter, h] at hcon
      exact absurd hcon.2 (by simp)
  · have hcon : (clients.filter fails).contains c = true := by
      rw [contains_true_iff, List.mem_filter]
      exact ⟨hc, h⟩
    rw [hcon]

end Broadcast

/-- C5: repeated `get_topology_data` calls with no intervening mutation
of the node/topology state return a structurally identical topology
(and leave the state unchanged), in both bridges. -/
theorem C5_topology_cache_idempotent :
    (∀ st : Serial.State,
      Serial.get_topology_data (Serial.get_topology_data st).2 =
        Serial.get_topology_data st) ∧
    (∀ st : Sim.State,
      Sim.get_topology_data (Sim.get_topology_data st).2 = Sim.get_topology_data st) :=
  ⟨Serial.get_topology_data_idem, Sim.sim_get_topology_data_idem⟩

/-- C8: in a broadcast sweep, subscribers whose send fails do not
prevent delivery to any other subscriber — exactly the non-failing
subscribers receive the message — and every failing subscriber is
removed from the registry by the end of the sweep, for every subscriber
list and every failing subset. -/
theorem C8_broadcast_failure_isolation :
    ∀ (clients : List Nat) (fails : Nat → Bool),
      (Broadcast.broadcast_update clients fails).1 = clients.filter (fun c => !fails c) ∧
      (Broadcast.broadcast_update clients fails).2 = clients.filter (fun c => !fails c) ∧
      (∀ c ∈ clients, fails c = false → c ∈ (Broadcast.broadcast_update clients fails).1) ∧
      (∀ c, fails c = true → c ∉ (Broadcast.broadcast_update clients fails).2) := by
  intro clients fails
  have h := Broadcast.broadcast_update_eq clients fails
  refine ⟨by rw [h], by rw [h], ?_, ?_⟩
  · intro c hc hf
    rw [h]
    simp only [List.mem_filter]
    exact ⟨hc, by simp [hf]⟩
  · intro c hf hmem
    rw [h] at hmem
    rw [List.mem_filter, hf] at hmem
    exact absurd hmem.2 (by simp)

/-- C8 witness: concrete three-subscriber sweep where subscriber 8
fails. -/
theorem C8_broadcast_failure_isolation_witness :
    (7 ∈ ([7, 8, 9] : List Nat)) ∧
    ((fun c => c == 8) 7 = false) ∧
    7 ∈ (Broadcast.broadcast_update [7, 8, 9] (fun c => c == 8)).1 ∧
    8 ∉ (Broadcast.broadcast_update [7, 8, 9] (fun c => c == 8)).2 := by
  have h := C8_broadcast_failure_isolation [7, 8, 9] (fun c => c == 8)
  exact ⟨by decide, by decide,
    h.2.2.1 7 (by decide) (by decide), h.2.2.2 8 (by decide)⟩

namespace Sim

/-- Any processed event either leaves `packet_events` unchanged or
appends one entry through the bounded ring. -/
theorem process_packet_events (st : State) (e : SimEvent) (now : Time) :
    (process_simulation_event st e now).packet_events = st.packet_events ∨
    ∃ p, (process_simulation_event st e now).packet_events =
      appendTrim MAX_PACKET_EVENTS st.packet_events p := by
  by_cases h1 : e.type = "node_status" ∨ e.type = "node_data"
  · cases hid : e.nodeId with
    | none => left; simp [process_simulation_event, h1, hid]
    | some j =>
      by_cases hj : j = 0
      · left; simp [process_simulation_event, h1, hid, hj]
      · left
        simp only [process_simulation_event, h1, if_true, hid, ne_eq, hj,
          not_false_eq_true, if_pos]
        simp
  · by_cases hs : e.type = "packet_sent"
    · right
      refine ⟨{ ptype := "sent", timestamp := now
                fromNode := e.fromNode.getD (e.nodeId.getD 0), toNode := none
                packetType := e.packetType.getD (e.eventKey.getD "UNKNOWN")
                rssi := e.rssi.getD (-50), snr := none, seq := e.seq.getD 0 }, ?_⟩
      simp [process_simulation_event, h1, hs]
    · by_cases hr : e.type = "packet_received"
      · right
        refine ⟨{ ptype := "received", timestamp := now
                  fromNode := e.fromNode.getD (e.fromKey.getD 0)
                  toNode := some (e.toNode.getD (e.nodeId.getD 0))
                  packetType := e.packetType.getD (e.eventKey.getD "UNKNOWN")
                  rssi := e.rssi.getD (-50), snr := some (e.snr.getD 0)
                  seq := e.seq.getD 0 }, ?_⟩
        simp [process_simulation_event, h1, hs, hr]
      · by_cases hd : e.type = "packet_dropped"
        · left; simp [process_simulation_event, h1, hs, hr, hd]
        · left; simp [process_simulation_event, h1, hs, hr, hd]

end Sim

/-- C6: both bounded history rings (topology snapshots and packet
events, capacity 100) never exceed their capacity, evict oldest-first
(each append result is a tail segment of the appended list, and a full
ring drops exactly its oldest entry), and snapshot capture is gated to
at least 30 seconds after the previous capture. -/
theorem C6_bounded_history_rings :
    (∀ (st : Serial.State) (now : Time),
        now - st.last_topology_snapshot_time < 30 →
        Serial.save_topology_snapshot st now = st) ∧
    (∀ (st : Serial.State) (now : Time),
        ¬(now - st.last_topology_snapshot_time < 30) →
        (Serial.save_topology_snapshot st now).topology_history =
          appendTrim Serial.MAX_TOPOLOGY_HISTORY st.topology_history
            { timestamp := now, nodes := st.network_topology }) ∧
    (∀ (st : Serial.State) (now : Time),
        st.topology_history.length ≤ Serial.MAX_TOPOLOGY_HISTORY →
        (Serial.save_topology_snapshot st now).topology_history.length ≤
          Serial.MAX_TOPOLOGY_HISTORY) ∧
    (∀ {α : Type} (l : List α) (x : α), ∃ k, appendTrim 100 l x = (l ++ [x]).drop k) ∧
    (∀ {α : Type} (l : List α) (x : α),
        l.length = 100 → appendTrim 100 l x = l.tail ++ [x]) ∧
    (∀ (st : Sim.State) (e : Sim.SimEvent) (now : Time),
        st.packet_events.length ≤ Sim.MAX_PACKET_EVENTS →
        (Sim.process_simulation_event st e now).packet_events.length ≤
          Sim.MAX_PACKET_EVENTS) := by
  refine ⟨?_, ?_, ?_, ?_, ?_, ?_⟩
  · intro st now h
    unfold Serial.save_topology_snapshot
    rw [if_pos h]
  · intro st now h
    unfold Serial.save_topology_snapshot
    rw [if_neg h]
  · intro st now h
    unfold Serial.save_topology_snapshot
    split
    · exact h
    · exact appendTrim_length_le _ _ _ h
  · intro α l x
    exact appendTrim_isDropOfAppend 100 l x
  · intro α l x h
    exact appendTrim_full 100 l x h (by norm_num)
  · intro st e now h
    rcases Sim.process_packet_events st e now with heq | ⟨p, heq⟩
    · rw [heq]; exact h
    · rw [heq]; exact appendTrim_length_le _ _ _ h

/-- C6 witness: the gate, append, capacity and eviction facts at
concrete inputs. -/
theorem C6_bounded_history_rings_witness :
    ((10 : Time) - Serial.initState.last_topology_snapshot_time < 30 ∧
      Serial.save_topology_snapshot Serial.initState 10 = Serial.initState) ∧
    (¬((50 : Time) - Serial.initState.last_topology_snapshot_time < 30) ∧
      (Serial.save_topology_snapshot Serial.initState 50).topology_history =
        appendTrim Serial.MAX_TOPOLOGY_HISTORY Serial.initState.topology_history
          { timestamp := 50, nodes := Serial.initState.network_topology }) ∧
    ((Serial.save_topology_snapshot Serial.initState 10).topology_history.length ≤
      Serial.MAX_TOPOLOGY_HISTORY) ∧
    (∃ k, appendTrim 100 ([] : List Nat) 7 = (([] : List Nat) ++ [7]).drop k) ∧
    ((List.replicate 100 (0 : Nat)).length = 100 ∧
      appendTrim 100 (List.replicate 100 (0 : Nat)) 7 =
        (List.replicate 100 (0 : Nat)).tail ++ [7]) ∧
    ((Sim.process_simulation_event Sim.initState Sim.exEvent 0).packet_events.length ≤
      Sim.MAX_PACKET_EVENTS) := by
  have h := C6_bounded_history_rings
  exact ⟨⟨by norm_num [Serial.initState], h.1 Serial.initState 10 (by norm_num [Serial.initState])⟩,
    ⟨by norm_num [Serial.initState], h.2.1 Serial.initState 50 (by norm_num [Serial.initState])⟩,
    h.2.2.1 Serial.initState 10 (by norm_num [Serial.initState, Serial.MAX_TOPOLOGY_HISTORY]),
    h.2.2.2.1 ([] : List Nat) 7,
    ⟨by simp, h.2.2.2.2.1 (List.replicate 100 (0 : Nat)) 7 (by simp)⟩,
    h.2.2.2.2.2 Sim.initState Sim.exEvent 0
      (by norm_num [Sim.initState, Sim.MAX_PACKET_EVENTS])⟩

/-- C7 counterexample: with an empty upload map, a failed upload for
node 2 at time 100 does not record an upload time, so another upload is
attempted one second later — within 20 seconds of the failed attempt —
contradicting the claim that a failed upload is not retried within the
interval. -/
theorem C7_upload_rate_limit_counterexample :
    (Serial.upload_to_thingspeak [] 2 100 false).1 = true ∧
    (Serial.upload_to_thingspeak
        (Serial.upload_to_thingspeak [] 2 100 false).2 2 101 false).1 = true ∧
    (101 : Time) - 100 < Serial.THINGSPEAK_UPDATE_INTERVAL := by
  have h0 : Serial.upload_to_thingspeak [] 2 100 false = (true, []) := by
    norm_num [Serial.upload_to_thingspeak, Serial.THINGSPEAK_NODE_IDS,
      Serial.THINGSPEAK_UPDATE_INTERVAL, JMap.getD, JMap.lookup]
  refine ⟨by rw [h0], ?_, ?_⟩
  · rw [h0]
    norm_num [Serial.upload_to_thingspeak, Serial.THINGSPEAK_NODE_IDS,
      Serial.THINGSPEAK_UPDATE_INTERVAL, JMap.getD, JMap.lookup]
  · norm_num [Serial.THINGSPEAK_UPDATE_INTERVAL]

/-- An attempted upload implies the node is allow-listed and the rate
gate (measured from the recorded last successful upload) has passed. -/
theorem Serial.upload_attempted (ts : JMap Time) (i : Nat) (now : Time) (s : Bool)
    (h : (upload_to_thingspeak ts i now s).1 = true) :
    i ∈ THINGSPEAK_NODE_IDS ∧ THINGSPEAK_UPDATE_INTERVAL ≤ now - ts.getD i 0 := by
  by_cases h1 : i ∈ THINGSPEAK_NODE_IDS
  · by_cases h2 : now - ts.getD i 0 < THINGSPEAK_UPDATE_INTERVAL
    · exfalso
      unfold upload_to_thingspeak at h
      rw [if_neg (not_not.mpr h1), if_pos h2] at h
      simp at h
    · exact ⟨h1, not_lt.mp h2⟩
  · exfalso
    unfold upload_to_thingspeak at h
    rw [if_pos h1] at h
    simp at h

/-- A successful attempted upload records its time in the map. -/
theorem Serial.upload_success_lookup (ts : JMap Time) (i : Nat) (now : Time)
    (h : (upload_to_thingspeak ts i now true).1 = true) :
    (upload_to_thingspeak ts i now true).2.lookup i = some now := by
  obtain ⟨h1, h2⟩ := upload_attempted ts i now true h
  unfold upload_to_thingspeak
  rw [if_neg (not_not.mpr h1), if_neg (not_lt.mpr h2), if_pos rfl]
  exact JMap.lookup_insert_self ts i now

/-- After a successful attempted upload, no attempt is made for the
same node within the rate interval. -/
theorem Serial.upload_no_retry_after_success (ts : JMap Time) (i : Nat)
    (now now' : Time) (s' : Bool)
    (h : (upload_to_thingspeak ts i now true).1 = true)
    (hlt : now' - now < THINGSPEAK_UPDATE_INTERVAL) :
    (upload_to_thingspeak (upload_to_thingspeak ts i now true).2 i now' s').1 = false := by
  obtain ⟨h1, -⟩ := upload_attempted ts i now true h
  have hlk := upload_success_lookup ts i now h
  have hgd : (upload_to_thingspeak ts i now true).2.getD i 0 = now := by
    unfold JMap.getD
    rw [hlk]
    rfl
  conv_lhs => rw [upload_to_thingspeak]
  rw [if_neg (not_not.mpr h1), hgd, if_pos hlt]

/-- A failed upload leaves the recorded-upload map unchanged. -/
theorem Serial.upload_failure_map (ts : JMap Time) (i : Nat) (now : Time) :
    (upload_to_thingspeak ts i now false).2 = ts := by
  unfold upload_to_thingspeak
  split_ifs with h1 h2 h3
  any_goals rfl
  exact h3.elim

/-- C7 amended: for every allow-listed node, an upload is attempted only
when at least 20 seconds have passed since the recorded last *successful*
upload; a successful attempt records its time, after which no attempt
occurs for 20 seconds; a failed attempt leaves the map unchanged (and may
therefore be retried before 20 seconds elapse). -/
theorem C7_upload_rate_limit_amended :
    (∀ (ts : JMap Time) (i : Nat) (now : Time) (s : Bool),
        (Serial.upload_to_thingspeak ts i now s).1 = true →
        i ∈ Serial.THINGSPEAK_NODE_IDS ∧
        Serial.THINGSPEAK_UPDATE_INTERVAL ≤ now - ts.getD i 0) ∧
    (∀ (ts : JMap Time) (i : Nat) (now : Time),
        (Serial.upload_to_thingspeak ts i now true).1 = true →
        (Serial.upload_to_thingspeak ts i now true).2.lookup i = some now) ∧
    (∀ (ts : JMap Time) (i : Nat) (now now' : Time) (s' : Bool),
        (Serial.upload_to_thingspeak ts i now true).1 = true →
        now' - now < Serial.THINGSPEAK_UPDATE_INTERVAL →
        (Serial.upload_to_thingspeak
          (Serial.upload_to_thingspeak ts i now true).2 i now' s').1 = false) ∧
    (∀ (ts : JMap Time) (i : Nat) (now : Time),
        (Serial.upload_to_thingspeak ts i now false).2 = ts) :=
  ⟨Serial.upload_attempted, Serial.upload_success_lookup,
    Serial.upload_no_retry_after_success, Serial.upload_failure_map⟩

/-- C7 witness: a successful upload for node 2 at time 100 is attempted,
records time 100, and blocks the attempt at time 110; a failed attempt
leaves the map unchanged. -/
theorem C7_upload_rate_limit_witness :
    ((Serial.upload_to_thingspeak [] 2 100 true).1 = true) ∧
    (2 ∈ Serial.THINGSPEAK_NODE_IDS ∧
      Serial.THINGSPEAK_UPDATE_INTERVAL ≤ (100 : Time) - JMap.getD [] 2 0) ∧
    ((Serial.upload_to_thingspeak [] 2 100 true).2.lookup 2 = some 100) ∧
    ((110 : Time) - 100 < Serial.THINGSPEAK_UPDATE_INTERVAL ∧
      (Serial.upload_to_thingspeak
        (Serial.upload_to_thingspeak [] 2 100 true).2 2 110 false).1 = false) ∧
    ((Serial.upload_to_thingspeak [] 2 100 false).2 = []) := by
  have h := C7_upload_rate_limit_amended
  have hatt : (Serial.upload_to_thingspeak [] 2 100 true).1 = true := by
    norm_num [Serial.upload_to_thingspeak, Serial.THINGSPEAK_NODE_IDS,
      Serial.THINGSPEAK_UPDATE_INTERVAL, JMap.getD, JMap.lookup]
  exact ⟨hatt,
    h.1 [] 2 100 true hatt,
    h.2.1 [] 2 100 hatt,
    ⟨by norm_num [Serial.THINGSPEAK_UPDATE_INTERVAL],
      h.2.2.1 [] 2 100 110 false hatt
        (by norm_num [Serial.THINGSPEAK_UPDATE_INTERVAL])⟩,
    h.2.2.2 [] 2 100⟩

namespace Sim

/-- One sweep iteration preserves "if a status changed, the dirty flag
is set": every flip sets both. -/
theorem sweep_node_dirty_inv (now : Time) (acc : SweepAcc) (i : Nat) (ls : Time)
    (h : acc.changed = true → acc.dirty = true) :
    (sweep_node now acc i ls).changed = true → (sweep_node now acc i ls).dirty = true := by
  unfold sweep_node
  split <;> split <;> first
    | exact h
    | (split <;> first
        | exact h
        | (intro _; rfl))

/-- The whole sweep preserves the changed-implies-dirty invariant. -/
theorem sweep_fold_dirty_inv (now : Time) (entries : List (Nat × Time)) (acc : SweepAcc)
    (h : acc.changed = true → acc.dirty = true) :
    (sweep_fold now entries acc).changed = true →
      (sweep_fold now entries acc).dirty = true := by
  induction entries generalizing acc with
  | nil => exact h
  | cons p rest ih =>
    obtain ⟨i, ls⟩ := p
    exact ih _ (sweep_node_dirty_inv now acc i ls h)

end Sim

/-- C2 counterexample: in the serial bridge, the offline sweep flips
node 2 offline (its elapsed silence of 100 s exceeds the 90 s timeout
and `status_changed` is reported) yet `topology_cache_dirty` stays
`false`, so the flip does not invalidate the topology cache as the
claim requires. -/
theorem C2_dirty_flag_counterexample :
    (Serial.check_offline_nodes Serial.exState 100).2 = true ∧
    ((Serial.check_offline_nodes Serial.exState 100).1.nodes_data.lookup 2).map
        Serial.NodeRecord.online = some false ∧
    (Serial.exState.nodes_data.lookup 2).map Serial.NodeRecord.online = some true ∧
    Serial.exState.topology_cache_dirty = false ∧
    (Serial.check_offline_nodes Serial.exState 100).1.topology_cache_dirty = false := by
  refine ⟨?_, ?_, ?_, ?_, ?_⟩ <;>
    norm_num [Serial.check_offline_nodes, Serial.sweep_fold, Serial.sweep_node,
      Serial.exState, Serial.initState, Serial.exRecord2, Serial.exEvent,
      Serial.NODE_OFFLINE_TIMEOUT, JMap.lookup, JMap.insert]

/-- C2 amended: event ingestion (`update_topology`) sets the dirty flag
in both bridges, and the simulation bridge's offline sweep sets it on
every liveness flip; but the serial bridge's offline sweep never touches
the dirty flag (its flips mutate only `nodes_data`), so serial liveness
flips are not reflected through the topology cache. -/
theorem C2_dirty_flag_amended :
    (∀ (st : Serial.State) (i : Nat) (d : Serial.MeshEvent) (now : Time),
        (Serial.update_topology st i d now).topology_cache_dirty = true) ∧
    (∀ (st : Sim.State) (i : Nat) (d : Sim.SimEvent) (now : Time),
        (Sim.update_topology st i d now).topology_cache_dirty = true) ∧
    (∀ (st : Sim.State) (now : Time),
        (Sim.check_offline_nodes st now).2 = true →
        (Sim.check_offline_nodes st now).1.topology_cache_dirty = true) ∧
    (∀ (st : Serial.State) (now : Time),
        (Serial.check_offline_nodes st now).1.topology_cache_dirty =
          st.topology_cache_dirty) := by
  refine ⟨fun st i d now => rfl, fun st i d now => rfl, ?_, fun st now => rfl⟩
  intro st now hch
  exact Sim.sweep_fold_dirty_inv now st.node_last_seen _ (by intro hx; simp at hx) hch

/-- C2 witness: ingestion at node 2 sets the dirty flag in both bridges;
the simulation sweep at time 100 flips node 2 and sets the dirty flag;
the serial sweep leaves the flag as it was. -/
theorem C2_dirty_flag_witness :
    (Serial.update_topology Serial.initState 2 Serial.exEvent 0).topology_cache_dirty = true ∧
    (Sim.update_topology Sim.initState 2 Sim.exEvent 0).topology_cache_dirty = true ∧
    ((Sim.check_offline_nodes Sim.exState 100).2 = true ∧
      (Sim.check_offline_nodes Sim.exState 100).1.topology_cache_dirty = true) ∧
    (Serial.check_offline_nodes Serial.exState 100).1.topology_cache_dirty =
      Serial.exState.topology_cache_dirty := by
  have h := C2_dirty_flag_amended
  have hch : (Sim.check_offline_nodes Sim.exState 100).2 = true := by
    norm_num [Sim.check_offline_nodes, Sim.sweep_fold, Sim.sweep_node,
      Sim.set_topo_online, Sim.exState, Sim.initState, Sim.exRecord2, Sim.exTopo2,
      Sim.NODE_OFFLINE_TIMEOUT, JMap.lookup, JMap.insert]
  exact ⟨h.1 Serial.initState 2 Serial.exEvent 0,
    h.2.1 Sim.initState 2 Sim.exEvent 0,
    ⟨hch, h.2.2.1 Sim.exState 100 hch⟩,
    h.2.2.2 Serial.exState 100⟩

namespace Serial

/-- Parent inference of the serial `update_topology`: a reported parent
of 0 or self maps to the gateway for non-root nodes and to 0 for the
root. -/
theorem update_topology_parent_inferred (st : State) (i : Nat) (d : MeshEvent) (now : Time)
    (h : d.meshSenderId.getD 0 = 0 ∨ d.meshSenderId.getD 0 = i) :
    ((update_topology st i d now).network_topology.lookup i).map TopoRecord.parentNode =
      some (if i ≠ GATEWAY_NODE_ID then GATEWAY_NODE_ID else 0) := by
  unfold update_topology
  simp only [JMap.lookup_insert_self, Option.map_some']
  rw [if_pos h]

/-- `build_edges` never emits a self-loop. -/
theorem build_edges_no_self (m : JMap TopoRecord) (e : Edge)
    (he : e ∈ build_edges m) : e.src ≠ e.dst := by
  induction m with
  | nil => simp [build_edges] at he
  | cons p rest ih =>
    obtain ⟨k, nd⟩ := p
    simp only [build_edges] at he
    rcases List.mem_append.mp he with h1 | h2
    · split_ifs at h1 with hc
      · simp only [List.mem_singleton] at h1
        subst h1
        exact fun hs => hc.2 hs.symm
      · simp at h1
    · exact ih h2

end Serial

namespace Sim

/-- Parent resolution of the simulation `update_topology`: the gateway
is substituted only when the reported parent is 0, the hop distance is
positive and the node is not the root; otherwise the reported parent
(including a self-parent) is stored verbatim. -/
theorem update_topology_parent_rule (st : State) (i : Nat) (d : SimEvent) (now : Time) :
    ((update_topology st i d now).network_topology.lookup i).map SimTopoRecord.parentNode =
      some (if d.parentNode.getD (d.meshSenderId.getD 0) = 0 ∧
               d.hopDistance.getD 0 > 0 ∧ i ≠ GATEWAY_NODE_ID
            then GATEWAY_NODE_ID
            else d.parentNode.getD (d.meshSenderId.getD 0)) := by
  unfold update_topology
  simp only [JMap.lookup_insert_self, Option.map_some']

/-- The simulation `build_edges` never emits a self-loop. -/
theorem sim_build_edges_no_self (m : JMap SimTopoRecord) (e : Edge)
    (he : e ∈ build_edges m) : e.src ≠ e.dst := by
  induction m with
  | nil => simp [build_edges] at he
  | cons p rest ih =>
    obtain ⟨k, nd⟩ := p
    simp only [build_edges] at he
    rcases List.mem_append.mp he with h1 | h2
    · split_ifs at h1 with hc
      · simp only [List.mem_singleton] at h1
        subst h1
        exact fun hs => hc.2 hs.symm
      · simp at h1
    · exact ih h2

end Sim

/-- C3 counterexample: in the simulation bridge, node 5 reporting
itself as parent is stored with parentNode = 5 rather than the gateway
id required by the claim (node 5 is not the root). -/
theorem C3_parent_inference_counterexample :
    ((Sim.update_topology Sim.initState 5
        { Sim.exEvent with nodeId := some 5, parentNode := some 5 }
        0).network_topology.lookup 5).map Sim.SimTopoRecord.parentNode = some 5 ∧
    (5 : Nat) ≠ Sim.GATEWAY_NODE_ID ∧
    ({ Sim.exEvent with nodeId := some 5, parentNode := some 5 } :
        Sim.SimEvent).parentNode = some 5 := by
  refine ⟨?_, by decide, rfl⟩
  simp [Sim.update_topology, Sim.exEvent, Sim.GATEWAY_NODE_ID]

/-- C3 amended: the serial bridge maps a reported parent of 0 or self to
the gateway (0 for the root itself) exactly as claimed; the simulation
bridge substitutes the gateway only when the reported parent is 0 with a
positive hop distance on a non-root node, and stores a reported
self-parent verbatim; in both bridges the emitted edge set never
contains a self-loop, so no node (in particular not the root) is ever
given a parent edge to itself. -/
theorem C3_parent_inference_amended :
    (∀ (st : Serial.State) (i : Nat) (d : Serial.MeshEvent) (now : Time),
        (d.meshSenderId.getD 0 = 0 ∨ d.meshSenderId.getD 0 = i) →
        ((Serial.update_topology st i d now).network_topology.lookup i).map
            Serial.TopoRecord.parentNode =
          some (if i ≠ Serial.GATEWAY_NODE_ID then Serial.GATEWAY_NODE_ID else 0)) ∧
    (∀ (st : Sim.State) (i : Nat) (d : Sim.SimEvent) (now : Time),
        ((Sim.update_topology st i d now).network_topology.lookup i).map
            Sim.SimTopoRecord.parentNode =
          some (if d.parentNode.getD (d.meshSenderId.getD 0) = 0 ∧
                   d.hopDistance.getD 0 > 0 ∧ i ≠ Sim.GATEWAY_NODE_ID
                then Sim.GATEWAY_NODE_ID
                else d.parentNode.getD (d.meshSenderId.getD 0))) ∧
    (∀ (m : JMap Serial.TopoRecord) (e : Edge),
        e ∈ Serial.build_edges m → e.src ≠ e.dst) ∧
    (∀ (m : JMap Sim.SimTopoRecord) (e : Edge),
        e ∈ Sim.build_edges m → e.src ≠ e.dst) :=
  ⟨Serial.update_topology_parent_inferred, Sim.update_topology_parent_rule,
    Serial.build_edges_no_self, Sim.sim_build_edges_no_self⟩

/-- C3 witness: node 2 reporting no parent is stored as a child of the
gateway in the serial bridge; the simulation rule at node 2; and the
concrete edge (2 → 1) is not a self-loop in either bridge. -/
theorem C3_parent_inference_witness :
    ((Serial.update_topology Serial.initState 2 Serial.exEvent 0).network_topology.lookup
        2).map Serial.TopoRecord.parentNode =
      some (if 2 ≠ Serial.GATEWAY_NODE_ID then Serial.GATEWAY_NODE_ID else 0) ∧
    ((Sim.update_topology Sim.initState 2 Sim.exEvent 0).network_topology.lookup 2).map
        Sim.SimTopoRecord.parentNode =
      some (if (Sim.exEvent.parentNode.getD (Sim.exEvent.meshSenderId.getD 0) = 0 ∧
               Sim.exEvent.hopDistance.getD 0 > 0 ∧ 2 ≠ Sim.GATEWAY_NODE_ID)
            then Sim.GATEWAY_NODE_ID
            else Sim.exEvent.parentNode.getD (Sim.exEvent.meshSenderId.getD 0)) ∧
    ((⟨2, 1, -60⟩ : Edge) ∈ Serial.build_edges [(2, Serial.exTopo2)] ∧
      (⟨2, 1, -60⟩ : Edge).src ≠ (⟨2, 1, -60⟩ : Edge).dst) ∧
    ((⟨2, 1, -50⟩ : Edge) ∈ Sim.build_edges [(2, Sim.exTopo2)] ∧
      (⟨2, 1, -50⟩ : Edge).src ≠ (⟨2, 1, -50⟩ : Edge).dst) := by
  have h := C3_parent_inference_amended
  have hm1 : (⟨2, 1, -60⟩ : Edge) ∈ Serial.build_edges [(2, Serial.exTopo2)] := by
    norm_num [Serial.build_edges, Serial.exTopo2]
  have hm2 : (⟨2, 1, -50⟩ : Edge) ∈ Sim.build_edges [(2, Sim.exTopo2)] := by
    norm_num [Sim.build_edges, Sim.exTopo2]
  exact ⟨h.1 Serial.initState 2 Serial.exEvent 0 (Or.inl rfl),
    h.2.1 Sim.initState 2 Sim.exEvent 0,
    ⟨hm1, h.2.2.1 [(2, Serial.exTopo2)] ⟨2, 1, -60⟩ hm1⟩,
    ⟨hm2, h.2.2.2 [(2, Sim.exTopo2)] ⟨2, 1, -50⟩ hm2⟩⟩

namespace JMap

theorem getD_eq {α : Type u} (m : JMap α) (k : Nat) (d : α) :
    m.getD k d = (m.lookup k).getD d := rfl

theorem getD_insert_self {α : Type u} (m : JMap α) (k : Nat) (v d : α) :
    (m.insert k v).getD k d = v := by
  rw [getD_eq, lookup_insert_self]
  rfl

end JMap

namespace Serial

/-- The per-node counters invariant of the serial bridge: after any
event trace from the initial state, the message count for node `i`
equals the number of applied events for `i`, and when at least one was
applied, the last-seen time and the stored record's `lastUpdate` equal
the arrival time of the last applied event, with `messageCount` equal
to the applied-event count. -/
theorem counters_correct (evs : List (MeshEvent × Time × Bool)) (i : Nat) (hi : i ≠ 0) :
    (applyEvents initState evs).node_message_count.getD i 0 = (appliedFor i evs).length ∧
    ∀ p, (appliedFor i evs).getLast? = some p →
      (applyEvents initState evs).node_last_seen.lookup i = some p.2.1 ∧
      ∃ r, (applyEvents initState evs).nodes_data.lookup i = some r ∧
        r.lastUpdate = p.2.1 ∧ r.messageCount = (appliedFor i evs).length := by
  induction evs using List.reverseRecOn with
  | nil =>
    refine ⟨rfl, ?_⟩
    intro p hp
    simp [appliedFor] at hp
  | append_singleton l q ih =>
    rw [applyEvents_append]
    by_cases happ : q.1.type = "node_data" ∧ q.1.nodeId = some i
    · obtain ⟨ht, hid⟩ := happ
      have hfilter : appliedFor i (l ++ [q]) = appliedFor i l ++ [q] := by
        simp [appliedFor, List.filter_append, ht, hid]
      obtain ⟨hnd, hls, hmc, -⟩ :=
        process_applied (applyEvents initState l) q.1 q.2.1 q.2.2 i ht hid hi
      rw [hfilter]
      constructor
      · rw [hmc, JMap.getD_insert_self, ih.1]
        simp
      · intro p hp
        rw [List.getLast?_concat] at hp
        obtain rfl : q = p := Option.some.inj hp
        refine ⟨by rw [hls, JMap.lookup_insert_self], ?_⟩
        refine ⟨_, by rw [hnd, JMap.lookup_insert_self], rfl, ?_⟩
        show (applyEvents initState l).node_message_count.getD i 0 + 1 =
          (appliedFor i l ++ [q]).length
        rw [ih.1]
        simp
    · have hfilter : appliedFor i (l ++ [q]) = appliedFor i l := by
        simp only [appliedFor, List.filter_append]
        suffices h : List.filter
            (fun p => decide (p.1.type = "node_data" ∧ p.1.nodeId = some i)) [q] = [] by
          rw [h, List.append_nil]
        simp [happ]
      have hpres := process_preserves (applyEvents initState l) q.1 q.2.1 q.2.2 i
        (not_and_or.mp happ)
      rw [hfilter]
      constructor
      · rw [JMap.getD_eq, hpres.2.2, ← JMap.getD_eq]
        exact ih.1
      · intro p hp
        obtain ⟨hls', r, hr, h1, h2⟩ := ih.2 p hp
        exact ⟨by rw [hpres.2.1]; exact hls',
          ⟨r, by rw [hpres.1]; exact hr, h1, h2⟩⟩

/-- An applied `node_data` event with a falsy node id is dropped
without any state change. -/
theorem process_falsy_drop (st : State) (d : MeshEvent) (now : Time) (u : Bool)
    (ht : d.type = "node_data") (h : d.nodeId = none ∨ d.nodeId = some 0) :
    process_mesh_data st d now u = st := by
  rcases h with h | h <;> simp [process_mesh_data, ht, h]

/-- Every processing step preserves the absence of bindings for
node id 0. -/
theorem process_zero_lookup (st : State) (d : MeshEvent) (now : Time) (u : Bool) :
    (process_mesh_data st d now u).nodes_data.lookup 0 = st.nodes_data.lookup 0 ∧
    (process_mesh_data st d now u).node_last_seen.lookup 0 = st.node_last_seen.lookup 0 ∧
    (process_mesh_data st d now u).node_message_count.lookup 0 =
      st.node_message_count.lookup 0 := by
  by_cases ht : d.type = "node_data"
  · cases hid : d.nodeId with
    | none => rw [process_falsy_drop st d now u ht (Or.inl hid)]; exact ⟨rfl, rfl, rfl⟩
    | some j =>
      by_cases hj : j = 0
      · subst hj
        rw [process_falsy_drop st d now u ht (Or.inr hid)]
        exact ⟨rfl, rfl, rfl⟩
      · exact process_preserves st d now u 0 (Or.inr (by simp [hid, hj]))
  · exact process_preserves st d now u 0 (Or.inl ht)

/-- No record keyed by node id 0 ever exists in the serial maps. -/
theorem no_zero_record (evs : List (MeshEvent × Time × Bool)) :
    (applyEvents initState evs).nodes_data.lookup 0 = none ∧
    (applyEvents initState evs).node_last_seen.lookup 0 = none ∧
    (applyEvents initState evs).node_message_count.lookup 0 = none := by
  induction evs using List.reverseRecOn with
  | nil => exact ⟨rfl, rfl, rfl⟩
  | append_singleton l q ih =>
    rw [applyEvents_append]
    have h := process_zero_lookup (applyEvents initState l) q.1 q.2.1 q.2.2
    exact ⟨h.1.trans ih.1, h.2.1.trans ih.2.1, h.2.2.trans ih.2.2⟩

end Serial

namespace Sim

/-- Characterization of the applied-event branch of
`process_simulation_event` on the three per-node maps. -/
theorem sim_process_applied (st : State) (e : SimEvent) (now : Time) (i : Nat)
    (ht : e.type = "node_status" ∨ e.type = "node_data") (hid : e.nodeId = some i)
    (hi : i ≠ 0) :
    (process_simulation_event st e now).nodes_data =
      st.nodes_data.insert i
        (mk_node_record e now i (st.node_message_count.getD i 0 + 1)) ∧
    (process_simulation_event st e now).node_last_seen = st.node_last_seen.insert i now ∧
    (process_simulation_event st e now).node_message_count =
      st.node_message_count.insert i (st.node_message_count.getD i 0 + 1) ∧
    (process_simulation_event st e now).topology_cache_dirty = true := by
  simp only [process_simulation_event, ht, if_true, hid, ne_eq, hi, not_false_eq_true,
    if_pos]
  refine ⟨?_, ?_, ?_, ?_⟩ <;> simp

/-- Events that are not an applied node event for node `i` leave node
`i`'s bindings in all three per-node maps unchanged. -/
theorem sim_process_preserves (st : State) (e : SimEvent) (now : Time) (i : Nat)
    (h : ¬(e.type = "node_status" ∨ e.type = "node_data") ∨ e.nodeId ≠ some i) :
    (process_simulation_event st e now).nodes_data.lookup i = st.nodes_data.lookup i ∧
    (process_simulation_event st e now).node_last_seen.lookup i =
      st.node_last_seen.lookup i ∧
    (process_simulation_event st e now).node_message_count.lookup i =
      st.node_message_count.lookup i := by
  by_cases ht : e.type = "node_status" ∨ e.type = "node_data"
  · replace h : e.nodeId ≠ some i := h.resolve_left (not_not.mpr ht)
    cases hid : e.nodeId with
    | none => simp [process_simulation_event, ht, hid]
    | some j =>
      have hj : j ≠ i := by rintro rfl; exact h hid
      by_cases hj0 : j = 0
      · simp [process_simulation_event, ht, hid, hj0]
      · simp only [process_simulation_event, ht, if_true, hid, ne_eq, hj0,
          not_false_eq_true, if_pos]
        refine ⟨?_, ?_, ?_⟩ <;> simp [JMap.lookup_insert_ne _ _ hj]
  · by_cases hs : e.type = "packet_sent"
    · simp [process_simulation_event, ht, hs]
    · by_cases hr : e.type = "packet_received"
      · simp [process_simulation_event, ht, hs, hr]
      · by_cases hd : e.type = "packet_dropped"
        · simp [process_simulation_event, ht, hs, hr, hd]
        · simp [process_simulation_event, ht, hs, hr, hd]

theorem sim_applyEvents_append (st : State) (l : List (SimEvent × Time)) (p : SimEvent × Time) :
    applyEvents st (l ++ [p]) = process_simulation_event (applyEvents st l) p.1 p.2 := by
  induction l generalizing st with
  | nil => rfl
  | cons q rest ih => simp [applyEvents, ih]

/-- The per-node counters invariant of the simulation bridge. -/
theorem sim_counters_correct (evs : List (SimEvent × Time)) (i : Nat) (hi : i ≠ 0) :
    (applyEvents initState evs).node_message_count.getD i 0 = (appliedFor i evs).length ∧
    ∀ p, (appliedFor i evs).getLast? = some p →
      (applyEvents initState evs).node_last_seen.lookup i = some p.2 ∧
      ∃ r, (applyEvents initState evs).nodes_data.lookup i = some r ∧
        r.lastUpdate = p.2 ∧ r.messageCount = (appliedFor i evs).length := by
  induction evs using List.reverseRecOn with
  | nil =>
    refine ⟨rfl, ?_⟩
    intro p hp
    simp [appliedFor] at hp
  | append_singleton l q ih =>
    rw [sim_applyEvents_append]
    by_cases happ : (q.1.type = "node_status" ∨ q.1.type = "node_data") ∧ q.1.nodeId = some i
    · obtain ⟨ht, hid⟩ := happ
      have hfilter : appliedFor i (l ++ [q]) = appliedFor i l ++ [q] := by
        simp [appliedFor, List.filter_append, ht, hid]
      obtain ⟨hnd, hls, hmc, -⟩ := sim_process_applied (applyEvents initState l) q.1 q.2 i ht hid hi
      rw [hfilter]
      constructor
      · rw [hmc, JMap.getD_insert_self, ih.1]
        simp
      · intro p hp
        rw [List.getLast?_concat] at hp
        obtain rfl : q = p := Option.some.inj hp
        refine ⟨by rw [hls, JMap.lookup_insert_self], ?_⟩
        refine ⟨_, by rw [hnd, JMap.lookup_insert_self], rfl, ?_⟩
        show (applyEvents initState l).node_message_count.getD i 0 + 1 =
          (appliedFor i l ++ [q]).length
        rw [ih.1]
        simp
    · have hfilter : appliedFor i (l ++ [q]) = appliedFor i l := by
        simp only [appliedFor, List.filter_append]
        suffices h : List.filter
            (fun p => decide ((p.1.type = "node_status" ∨ p.1.type = "node_data") ∧
              p.1.nodeId = some i)) [q] = [] by
          rw [h, List.append_nil]
        simp [happ]
      have hpres := sim_process_preserves (applyEvents initState l) q.1 q.2 i
        (not_and_or.mp happ)
      rw [hfilter]
      constructor
      · rw [JMap.getD_eq, hpres.2.2, ← JMap.getD_eq]
        exact ih.1
      · intro p hp
        obtain ⟨hls', r, hr, h1, h2⟩ := ih.2 p hp
        exact ⟨by rw [hpres.2.1]; exact hls',
          ⟨r, by rw [hpres.1]; exact hr, h1, h2⟩⟩

/-- An applied node event with a falsy node id is dropped without any
state change. -/
theorem sim_process_falsy_drop (st : State) (e : SimEvent) (now : Time)
    (ht : e.type = "node_status" ∨ e.type = "node_data")
    (h : e.nodeId = none ∨ e.nodeId = some 0) :
    process_simulation_event st e now = st := by
  rcases h with h | h <;> simp [process_simulation_event, ht, h]

/-- Every processing step preserves the absence of bindings for
node id 0. -/
theorem sim_process_zero_lookup (st : State) (e : SimEvent) (now : Time) :
    (process_simulation_event st e now).nodes_data.lookup 0 = st.nodes_data.lookup 0 ∧
    (process_simulation_event st e now).node_last_seen.lookup 0 =
      st.node_last_seen.lookup 0 ∧
    (process_simulation_event st e now).node_message_count.lookup 0 =
      st.node_message_count.lookup 0 := by
  by_cases ht : e.type = "node_status" ∨ e.type = "node_data"
  · cases hid : e.nodeId with
    | none => rw [sim_process_falsy_drop st e now ht (Or.inl hid)]; exact ⟨rfl, rfl, rfl⟩
    | some j =>
      by_cases hj : j = 0
      · subst hj
        rw [sim_process_falsy_drop st e now ht (Or.inr hid)]
        exact ⟨rfl, rfl, rfl⟩
      · exact sim_process_preserves st e now 0 (Or.inr (by simp [hid, hj]))
  · exact sim_process_preserves st e now 0 (Or.inl ht)

/-- No record keyed by node id 0 ever exists in the simulation maps. -/
theorem sim_no_zero_record (evs : List (SimEvent × Time)) :
    (applyEvents initState evs).nodes_data.lookup 0 = none ∧
    (applyEvents initState evs).node_last_seen.lookup 0 = none ∧
    (applyEvents initState evs).node_message_count.lookup 0 = none := by
  induction evs using List.reverseRecOn with
  | nil => exact ⟨rfl, rfl, rfl⟩
  | append_singleton l q ih =>
    rw [sim_applyEvents_append]
    have h := sim_process_zero_lookup (applyEvents initState l) q.1 q.2
    exact ⟨h.1.trans ih.1, h.2.1.trans ih.2.1, h.2.2.trans ih.2.2⟩

end Sim

/-- C1: for every event trace applied from the initial state and every
node id, the stored message count equals the number of applied
(non-dropped) events for that node, and the last-seen time and the
record's `lastUpdate` equal the arrival time of the most recently
applied event — in both bridges. -/
theorem C1_per_node_counters :
    (∀ (evs : List (Serial.MeshEvent × Time × Bool)) (i : Nat), i ≠ 0 →
      (Serial.applyEvents Serial.initState evs).node_message_count.getD i 0 =
        (Serial.appliedFor i evs).length ∧
      ∀ p, (Serial.appliedFor i evs).getLast? = some p →
        (Serial.applyEvents Serial.initState evs).node_last_seen.lookup i = some p.2.1 ∧
        ∃ r, (Serial.applyEvents Serial.initState evs).nodes_data.lookup i = some r ∧
          r.lastUpdate = p.2.1 ∧
          r.messageCount = (Serial.appliedFor i evs).length) ∧
    (∀ (evs : List (Sim.SimEvent × Time)) (i : Nat), i ≠ 0 →
      (Sim.applyEvents Sim.initState evs).node_message_count.getD i 0 =
        (Sim.appliedFor i evs).length ∧
      ∀ p, (Sim.appliedFor i evs).getLast? = some p →
        (Sim.applyEvents Sim.initState evs).node_last_seen.lookup i = some p.2 ∧
        ∃ r, (Sim.applyEvents Sim.initState evs).nodes_data.lookup i = some r ∧
          r.lastUpdate = p.2 ∧ r.messageCount = (Sim.appliedFor i evs).length) :=
  ⟨Serial.counters_correct, Sim.sim_counters_correct⟩

/-- C1 witness: a concrete two-event trace for node 2 at times 5 and 9
yields message count 2 and last-seen 9 in both bridges. -/
theorem C1_per_node_counters_witness :
    ((2 : Nat) ≠ 0) ∧
    ((Serial.appliedFor 2 Serial.exTrace).getLast? =
      some ({ Serial.exEvent with nodeId := some 2 }, 9, false)) ∧
    ((Serial.applyEvents Serial.initState Serial.exTrace).node_message_count.getD 2 0 =
      (Serial.appliedFor 2 Serial.exTrace).length) ∧
    ((Serial.applyEvents Serial.initState Serial.exTrace).node_last_seen.lookup 2 =
      some 9) ∧
    (∃ r, (Serial.applyEvents Serial.initState Serial.exTrace).nodes_data.lookup 2 =
        some r ∧ r.lastUpdate = 9 ∧
        r.messageCount = (Serial.appliedFor 2 Serial.exTrace).length) ∧
    ((Sim.applyEvents Sim.initState Sim.exTrace).node_message_count.getD 2 0 =
      (Sim.appliedFor 2 Sim.exTrace).length) ∧
    ((Sim.applyEvents Sim.initState Sim.exTrace).node_last_seen.lookup 2 = some 9) ∧
    (∃ r, (Sim.applyEvents Sim.initState Sim.exTrace).nodes_data.lookup 2 = some r ∧
        r.lastUpdate = 9 ∧ r.messageCount = (Sim.appliedFor 2 Sim.exTrace).length) := by
  have h := C1_per_node_counters
  have hs := h.1 Serial.exTrace 2 (by decide)
  have hgl : (Serial.appliedFor 2 Serial.exTrace).getLast? =
      some ({ Serial.exEvent with nodeId := some 2 }, 9, false) := rfl
  have hs2 := hs.2 _ hgl
  have hm := h.2 Sim.exTrace 2 (by decide)
  have hgl2 : (Sim.appliedFor 2 Sim.exTrace).getLast? =
      some ({ Sim.exEvent with nodeId := some 2 }, 9) := rfl
  have hm2 := hm.2 _ hgl2
  exact ⟨by decide, hgl, hs.1, hs2.1, hs2.2, hm.1, hm2.1, hm2.2⟩

/-- C10: a node event whose `nodeId` is absent or 0 is silently dropped
— the state is left entirely unchanged — and consequently no binding
for node id 0 ever exists in any of the per-node maps of either
bridge. -/
theorem C10_falsy_node_id_dropped :
    (∀ (st : Serial.State) (d : Serial.MeshEvent) (now : Time) (u : Bool),
        d.type = "node_data" → (d.nodeId = none ∨ d.nodeId = some 0) →
        Serial.process_mesh_data st d now u = st) ∧
    (∀ (st : Sim.State) (e : Sim.SimEvent) (now : Time),
        (e.type = "node_status" ∨ e.type = "node_data") →
        (e.nodeId = none ∨ e.nodeId = some 0) →
        Sim.process_simulation_event st e now = st) ∧
    (∀ evs : List (Serial.MeshEvent × Time × Bool),
        (Serial.applyEvents Serial.initState evs).nodes_data.lookup 0 = none ∧
        (Serial.applyEvents Serial.initState evs).node_last_seen.lookup 0 = none ∧
        (Serial.applyEvents Serial.initState evs).node_message_count.lookup 0 = none) ∧
    (∀ evs : List (Sim.SimEvent × Time),
        (Sim.applyEvents Sim.initState evs).nodes_data.lookup 0 = none ∧
        (Sim.applyEvents Sim.initState evs).node_last_seen.lookup 0 = none ∧
        (Sim.applyEvents Sim.initState evs).node_message_count.lookup 0 = none) :=
  ⟨Serial.process_falsy_drop, Sim.sim_process_falsy_drop,
    Serial.no_zero_record, Sim.sim_no_zero_record⟩

/-- C10 witness: a `node_data` event with no `nodeId` leaves the sample
states unchanged, and the concrete traces produce no binding for node
id 0. -/
theorem C10_falsy_node_id_dropped_witness :
    (Serial.exEvent.type = "node_data" ∧ Serial.exEvent.nodeId = none ∧
      Serial.process_mesh_data Serial.exState Serial.exEvent 5 false = Serial.exState) ∧
    (Sim.exEvent.type = "node_data" ∧ Sim.exEvent.nodeId = none ∧
      Sim.process_simulation_event Sim.exState Sim.exEvent 5 = Sim.exState) ∧
    (Serial.applyEvents Serial.initState Serial.exTrace).nodes_data.lookup 0 = none ∧
    (Sim.applyEvents Sim.initState Sim.exTrace).nodes_data.lookup 0 = none := by
  have h := C10_falsy_node_id_dropped
  exact ⟨⟨rfl, rfl, h.1 Serial.exState Serial.exEvent 5 false rfl (Or.inl rfl)⟩,
    ⟨rfl, rfl, h.2.1 Sim.exState Sim.exEvent 5 (Or.inr rfl) (Or.inl rfl)⟩,
    (h.2.2.1 Serial.exTrace).1, (h.2.2.2 Sim.exTrace).1⟩

namespace Sim

theorem event_position_flat (e : SimEvent) (px : ℚ) (h : e.posX = some px) :
    event_position e = (px, e.posY.getD 0) := by
  simp [event_position, h]

theorem event_position_nested (e : SimEvent) (h : e.posX = none) :
    event_position e =
      ((e.position.bind Position.x).getD 0, (e.position.bind Position.y).getD 0) := by
  simp [event_position, h]

/-- Field-level characterization of the stored record for an applied
event: flat keys win over the nested mappings, which are used only when
the flat key is absent. -/
theorem record_field_precedence (st : State) (e : SimEvent) (now : Time) (i : Nat)
    (ht : e.type = "node_status" ∨ e.type = "node_data") (hid : e.nodeId = some i)
    (hi : i ≠ 0) :
    ∃ r, (process_simulation_event st e now).nodes_data.lookup i = some r ∧
      (∀ px, e.posX = some px → r.posx = px ∧ r.posy = e.posY.getD 0) ∧
      (e.posX = none → r.posx = (e.position.bind Position.x).getD 0 ∧
        r.posy = (e.position.bind Position.y).getD 0) ∧
      (∀ t, e.temp = some t → r.temp = some t) ∧
      (e.temp = none → r.temp = e.sensors.bind Sensors.temperature) ∧
      (∀ hq, e.humidity = some hq → r.humidity = some hq) ∧
      (e.humidity = none → r.humidity = e.sensors.bind Sensors.humidity) := by
  obtain ⟨hnd, -, -, -⟩ := sim_process_applied st e now i ht hid hi
  refine ⟨mk_node_record e now i (st.node_message_count.getD i 0 + 1),
    by rw [hnd, JMap.lookup_insert_self], ?_, ?_, ?_, ?_, ?_, ?_⟩
  · intro px hpx
    constructor <;> simp [mk_node_record, event_position_flat e px hpx]
  · intro hpx
    constructor <;> simp [mk_node_record, event_position_nested e hpx]
  · intro t htemp
    simp [mk_node_record, htemp]
  · intro htemp
    simp [mk_node_record, htemp]
  · intro hq hh
    simp [mk_node_record, hh]
  · intro hh
    simp [mk_node_record, hh]

/-- The topology record's position: flat keys win. -/
theorem update_topology_pos_flat (st : State) (i : Nat) (e : SimEvent) (now : Time)
    (px : ℚ) (h : e.posX = some px) :
    ((update_topology st i e now).network_topology.lookup i).map (fun t => (t.x, t.y)) =
      some (px, e.posY.getD 0) := by
  unfold update_topology
  simp [JMap.lookup_insert_self, h]

/-- The topology record's position when the flat key is absent: the
nested mapping, with default x = nodeId·100. -/
theorem update_topology_pos_nested (st : State) (i : Nat) (e : SimEvent) (now : Time)
    (h : e.posX = none) :
    ((update_topology st i e now).network_topology.lookup i).map (fun t => (t.x, t.y)) =
      some ((e.position.bind Position.x).getD ((i : ℚ) * 100),
        (e.position.bind Position.y).getD 0) := by
  unfold update_topology
  simp [JMap.lookup_insert_self, h]

end Sim

/-- C9: position extraction prefers the flat `posX`/`posY` keys — when
`posX` is present the stored position ignores any nested `position`
mapping — and uses the nested mapping only when `posX` is absent; the
same preference holds for the flat `temp`/`humidity` keys over the
nested `sensors` mapping, both in the stored node record and in the
topology record. -/
theorem C9_position_precedence :
    (∀ (st : Sim.State) (e : Sim.SimEvent) (now : Time) (i : Nat),
      (e.type = "node_status" ∨ e.type = "node_data") → e.nodeId = some i → i ≠ 0 →
      ∃ r, (Sim.process_simulation_event st e now).nodes_data.lookup i = some r ∧
        (∀ px, e.posX = some px → r.posx = px ∧ r.posy = e.posY.getD 0) ∧
        (e.posX = none → r.posx = (e.position.bind Sim.Position.x).getD 0 ∧
          r.posy = (e.position.bind Sim.Position.y).getD 0) ∧
        (∀ t, e.temp = some t → r.temp = some t) ∧
        (e.temp = none → r.temp = e.sensors.bind Sim.Sensors.temperature) ∧
        (∀ hq, e.humidity = some hq → r.humidity = some hq) ∧
        (e.humidity = none → r.humidity = e.sensors.bind Sim.Sensors.humidity)) ∧
    (∀ (st : Sim.State) (i : Nat) (e : Sim.SimEvent) (now : Time) (px : ℚ),
      e.posX = some px →
      ((Sim.update_topology st i e now).network_topology.lookup i).map
          (fun t => (t.x, t.y)) = some (px, e.posY.getD 0)) ∧
    (∀ (st : Sim.State) (i : Nat) (e : Sim.SimEvent) (now : Time),
      e.posX = none →
      ((Sim.update_topology st i e now).network_topology.lookup i).map
          (fun t => (t.x, t.y)) =
        some ((e.position.bind Sim.Position.x).getD ((i : ℚ) * 100),
          (e.position.bind Sim.Position.y).getD 0)) :=
  ⟨Sim.record_field_precedence, Sim.update_topology_pos_flat,
    Sim.update_topology_pos_nested⟩

/-- C9 witness: an event for node 5 carrying both conventions — flat
posX = 300 with a nested position (310, 5), flat temp = 72 with a nested
sensor temperature, and only a nested humidity — stores position
(300, 0), temperature 72 and the nested humidity 40. -/
theorem C9_position_precedence_witness :
    (Sim.exEvent9.posX = some 300 ∧ Sim.exEvent9.position =
      some { x := some 310, y := some 5 } ∧ Sim.exEvent9.temp = some 72 ∧
      Sim.exEvent9.humidity = none) ∧
    (∃ r, (Sim.process_simulation_event Sim.initState Sim.exEvent9 3).nodes_data.lookup 5 =
        some r ∧ r.posx = 300 ∧ r.posy = 0 ∧ r.temp = some 72 ∧ r.humidity = some 40) ∧
    ((Sim.update_topology Sim.initState 5 Sim.exEvent9 3).network_topology.lookup 5).map
        (fun t => (t.x, t.y)) = some (300, 0) := by
  have h := C9_position_precedence
  obtain ⟨r, hr, hflat, -, htp, -, -, hhn⟩ :=
    h.1 Sim.initState Sim.exEvent9 3 5 (Or.inr rfl) rfl (by decide)
  obtain ⟨hx, hy⟩ := hflat 300 rfl
  refine ⟨⟨rfl, rfl, rfl, rfl⟩, ⟨r, hr, hx, hy.trans rfl, htp 72 rfl, (hhn rfl).trans rfl⟩, ?_⟩
  exact (h.2.1 Sim.initState 5 Sim.exEvent9 3 300 rfl).trans rfl

namespace Serial

theorem sweep_node_lookup_self (now : Time) (nd : JMap NodeRecord) (i : Nat) (ls : Time) :
    (sweep_node now nd i ls).1.lookup i = sweep_result now ls (nd.lookup i) := by
  cases hl : nd.lookup i with
  | none => simp [sweep_node, sweep_result, hl]
  | some r =>
    by_cases hc : now - ls > NODE_OFFLINE_TIMEOUT <;>
      by_cases hr : r.online = true <;>
        simp [sweep_node, sweep_result, hl, hc, hr, JMap.lookup_insert_self]

theorem sweep_node_lookup_ne (now : Time) (nd : JMap NodeRecord) (j : Nat) (ls : Time)
    (i : Nat) (h : j ≠ i) : (sweep_node now nd j ls).1.lookup i = nd.lookup i := by
  cases hl : nd.lookup j with
  | none => simp [sweep_node, hl]
  | some r =>
    by_cases hc : now - ls > NODE_OFFLINE_TIMEOUT <;>
      by_cases hr : r.online = true <;>
        simp [sweep_node, hl, hc, hr, JMap.lookup_insert_ne _ _ h]

theorem sweep_fold_lookup_notin (now : Time) (i : Nat) :
    ∀ (entries : List (Nat × Time)) (nd : JMap NodeRecord) (ch : Bool),
      i ∉ entries.map Prod.fst →
      (sweep_fold now entries nd ch).1.lookup i = nd.lookup i := by
  intro entries
  induction entries with
  | nil => intro nd ch _; rfl
  | cons p rest ih =>
    intro nd ch h
    obtain ⟨j, ls⟩ := p
    simp only [List.map_cons, List.mem_cons] at h
    push_neg at h
    rw [sweep_fold, ih _ _ h.2, sweep_node_lookup_ne now nd j ls i (Ne.symm h.1)]

theorem sweep_fold_lookup_self (now : Time) (i : Nat) (l : Time) :
    ∀ (entries : List (Nat × Time)) (nd : JMap NodeRecord) (ch : Bool),
      (entries.map Prod.fst).Nodup → JMap.lookup entries i = some l →
      (sweep_fold now entries nd ch).1.lookup i = sweep_result now l (nd.lookup i) := by
  intro entries
  induction entries with
  | nil => intro nd ch _ hl; simp [JMap.lookup] at hl
  | cons p rest ih =>
    intro nd ch hnd hl
    obtain ⟨j, ls⟩ := p
    simp only [List.map_cons, List.nodup_cons] at hnd
    by_cases hj : j = i
    · subst hj
      rw [JMap.lookup_cons, if_pos rfl] at hl
      obtain rfl : ls = l := Option.some.inj hl
      rw [sweep_fold, sweep_fold_lookup_notin now j rest _ _ hnd.1]
      exact sweep_node_lookup_self now nd j ls
    · rw [JMap.lookup_cons, if_neg hj] at hl
      rw [sweep_fold, ih _ _ hnd.2 hl, sweep_node_lookup_ne now nd j ls i hj]

end Serial

namespace Sim

theorem sim_sweep_node_lookup_self (now : Time) (acc : SweepAcc) (i : Nat) (ls : Time) :
    (sweep_node now acc i ls).nd.lookup i = sweep_result now ls (acc.nd.lookup i) := by
  cases hl : acc.nd.lookup i with
  | none => simp [sweep_node, sweep_result, hl]
  | some r =>
    by_cases hc : now - ls > NODE_OFFLINE_TIMEOUT <;>
      by_cases hr : r.online = true <;>
        simp [sweep_node, sweep_result, hl, hc, hr, JMap.lookup_insert_self]

theorem sim_sweep_node_lookup_ne (now : Time) (acc : SweepAcc) (j : Nat) (ls : Time)
    (i : Nat) (h : j ≠ i) : (sweep_node now acc j ls).nd.lookup i = acc.nd.lookup i := by
  cases hl : acc.nd.lookup j with
  | none => simp [sweep_node, hl]
  | some r =>
    by_cases hc : now - ls > NODE_OFFLINE_TIMEOUT <;>
      by_cases hr : r.online = true <;>
        simp [sweep_node, hl, hc, hr, JMap.lookup_insert_ne _ _ h]

theorem sim_sweep_fold_lookup_notin (now : Time) (i : Nat) :
    ∀ (entries : List (Nat × Time)) (acc : SweepAcc),
      i ∉ entries.map Prod.fst →
      (sweep_fold now entries acc).nd.lookup i = acc.nd.lookup i := by
  intro entries
  induction entries with
  | nil => intro acc _; rfl
  | cons p rest ih =>
    intro acc h
    obtain ⟨j, ls⟩ := p
    simp only [List.map_cons, List.mem_cons] at h
    push_neg at h
    rw [sweep_fold, ih _ h.2, sim_sweep_node_lookup_ne now acc j ls i (Ne.symm h.1)]

theorem sim_sweep_fold_lookup_self (now : Time) (i : Nat) (l : Time) :
    ∀ (entries : List (Nat × Time)) (acc : SweepAcc),
      (entries.map Prod.fst).Nodup → JMap.lookup entries i = some l →
      (sweep_fold now entries acc).nd.lookup i = sweep_result now l (acc.nd.lookup i) := by
  intro entries
  induction entries with
  | nil => intro acc _ hl; simp [JMap.lookup] at hl
  | cons p rest ih =>
    intro acc hnd hl
    obtain ⟨j, ls⟩ := p
    simp only [List.map_cons, List.nodup_cons] at hnd
    by_cases hj : j = i
    · subst hj
      rw [JMap.lookup_cons, if_pos rfl] at hl
      obtain rfl : ls = l := Option.some.inj hl
      rw [sweep_fold, sim_sweep_fold_lookup_notin now j rest _ hnd.1]
      exact sim_sweep_node_lookup_self now acc j ls
    · rw [JMap.lookup_cons, if_neg hj] at hl
      rw [sweep_fold, ih _ hnd.2 hl, sim_sweep_node_lookup_ne now acc j ls i hj]

end Sim

/-- C4 counterexample: in the simulation bridge the sweep at time 100
flips node 2 (silent since time 0, past the 10 s timeout) to
online = false but records no offline-since timestamp — the stored
record's `offlineSince` is `none`, not `some 0` as the claim
requires. -/
theorem C4_offline_transition_counterexample :
    ((Sim.check_offline_nodes Sim.exState 100).1.nodes_data.lookup 2).map
        Sim.SimNodeRecord.online = some false ∧
    ((Sim.check_offline_nodes Sim.exState 100).1.nodes_data.lookup 2).map
        Sim.SimNodeRecord.offlineSince = some none ∧
    Sim.exState.node_last_seen.lookup 2 = some 0 ∧
    (100 : Time) - 0 > Sim.NODE_OFFLINE_TIMEOUT := by
  refine ⟨?_, ?_, rfl, by norm_num [Sim.NODE_OFFLINE_TIMEOUT]⟩ <;>
    norm_num [Sim.check_offline_nodes, Sim.sweep_fold, Sim.sweep_node, Sim.set_topo_online,
      Sim.exState, Sim.initState, Sim.exRecord2, Sim.exTopo2, Sim.NODE_OFFLINE_TIMEOUT,
      JMap.lookup, JMap.insert]

/-- C4 amended: for a node silent past the threshold while marked
online, exactly one sweep transitions it to online = false (subsequent
sweeps with the node still silent make no further change), and a
subsequently applied event from the node restores online = true; the
*serial* bridge additionally records offline-since = last-seen at the
transition and the subsequent event clears it, while the *simulation*
bridge flips the online flag without recording an offline-since
timestamp. -/
theorem C4_offline_transition_amended :
    (∀ (st : Serial.State) (i : Nat) (l : Time) (r : Serial.NodeRecord) (now : Time),
      (st.node_last_seen.map Prod.fst).Nodup →
      st.node_last_seen.lookup i = some l →
      st.nodes_data.lookup i = some r →
      r.online = true →
      now - l > Serial.NODE_OFFLINE_TIMEOUT →
      (Serial.check_offline_nodes st now).1.nodes_data.lookup i =
        some { r with online := false, offlineSince := some l } ∧
      (∀ now', now' - l > Serial.NODE_OFFLINE_TIMEOUT →
        (Serial.check_offline_nodes
            (Serial.check_offline_nodes st now).1 now').1.nodes_data.lookup i =
          some { r with online := false, offlineSince := some l }) ∧
      (∀ (d : Serial.MeshEvent) (t : Time) (u : Bool),
        d.type = "node_data" → d.nodeId = some i → i ≠ 0 →
        ∃ r', (Serial.process_mesh_data
            (Serial.check_offline_nodes st now).1 d t u).nodes_data.lookup i = some r' ∧
          r'.online = true ∧ r'.offlineSince = none)) ∧
    (∀ (st : Sim.State) (i : Nat) (l : Time) (r : Sim.SimNodeRecord) (now : Time),
      (st.node_last_seen.map Prod.fst).Nodup →
      st.node_last_seen.lookup i = some l →
      st.nodes_data.lookup i = some r →
      r.online = true →
      now - l > Sim.NODE_OFFLINE_TIMEOUT →
      (Sim.check_offline_nodes st now).1.nodes_data.lookup i =
        some { r with online := false } ∧
      (∀ now', now' - l > Sim.NODE_OFFLINE_TIMEOUT →
        (Sim.check_offline_nodes
            (Sim.check_offline_nodes st now).1 now').1.nodes_data.lookup i =
          some { r with online := false }) ∧
      (∀ (e : Sim.SimEvent) (t : Time),
        (e.type = "node_status" ∨ e.type = "node_data") → e.nodeId = some i → i ≠ 0 →
        ∃ r', (Sim.process_simulation_event
            (Sim.check_offline_nodes st now).1 e t).nodes_data.lookup i = some r' ∧
          r'.online = true ∧ r'.offlineSince = none)) := by
  constructor
  · intro st i l r now hk hls hr hon he
    have h1 : (Serial.check_offline_nodes st now).1.nodes_data.lookup i =
        some { r with online := false, offlineSince := some l } := by
      show (Serial.sweep_fold now st.node_last_seen st.nodes_data false).1.lookup i = _
      rw [Serial.sweep_fold_lookup_self now i l st.node_last_seen st.nodes_data false hk hls,
        hr]
      simp [Serial.sweep_result, he, hon]
    refine ⟨h1, ?_, ?_⟩
    · intro now' he'
      show (Serial.sweep_fold now' st.node_last_seen
        (Serial.check_offline_nodes st now).1.nodes_data false).1.lookup i = _
      rw [Serial.sweep_fold_lookup_self now' i l st.node_last_seen _ false hk hls, h1]
      simp [Serial.sweep_result, he']
    · intro d t u ht hid hi
      obtain ⟨hnd, -, -, -⟩ :=
        Serial.process_applied (Serial.check_offline_nodes st now).1 d t u i ht hid hi
      exact ⟨_, by rw [hnd, JMap.lookup_insert_self], rfl, rfl⟩
  · intro st i l r now hk hls hr hon he
    have h1 : (Sim.check_offline_nodes st now).1.nodes_data.lookup i =
        some { r with online := false } := by
      show (Sim.sweep_fold now st.node_last_seen
        { nd := st.nodes_data, topo := st.network_topology
          dirty := st.topology_cache_dirty, changed := false }).nd.lookup i = _
      rw [Sim.sim_sweep_fold_lookup_self now i l st.node_last_seen _ hk hls]
      simp [Sim.sweep_result, hr, he, hon]
    refine ⟨h1, ?_, ?_⟩
    · intro now' he'
      show (Sim.sweep_fold now' st.node_last_seen
        { nd := (Sim.check_offline_nodes st now).1.nodes_data
          topo := (Sim.check_offline_nodes st now).1.network_topology
          dirty := (Sim.check_offline_nodes st now).1.topology_cache_dirty
          changed := false }).nd.lookup i = _
      rw [Sim.sim_sweep_fold_lookup_self now' i l st.node_last_seen _ hk hls]
      simp [Sim.sweep_result, h1, he']
    · intro e t ht hid hi
      obtain ⟨hnd, -, -, -⟩ :=
        Sim.sim_process_applied (Sim.check_offline_nodes st now).1 e t i ht hid hi
      exact ⟨_, by rw [hnd, JMap.lookup_insert_self], rfl, rfl⟩

/-- C4 witness: node 2 of the sample states, silent since time 0, is
flipped offline by the sweep at time 100 (serial: with
offlineSince = 0; simulation: without recording offline-since),
unchanged by a second sweep at time 200, and restored online (serial:
with offlineSince cleared) by an event at time 300 — in both
bridges. -/
theorem C4_offline_transition_witness :
    ((Serial.exState.node_last_seen.map Prod.fst).Nodup ∧
      (100 : Time) - 0 > Serial.NODE_OFFLINE_TIMEOUT) ∧
    (Serial.check_offline_nodes Serial.exState 100).1.nodes_data.lookup 2 =
      some { Serial.exRecord2 with online := false, offlineSince := some 0 } ∧
    (Serial.check_offline_nodes
        (Serial.check_offline_nodes Serial.exState 100).1 200).1.nodes_data.lookup 2 =
      some { Serial.exRecord2 with online := false, offlineSince := some 0 } ∧
    (∃ r', (Serial.process_mesh_data (Serial.check_offline_nodes Serial.exState 100).1
        { Serial.exEvent with nodeId := some 2 } 300 false).nodes_data.lookup 2 =
        some r' ∧ r'.online = true ∧ r'.offlineSince = none) ∧
    (Sim.check_offline_nodes Sim.exState 100).1.nodes_data.lookup 2 =
      some { Sim.exRecord2 with online := false } ∧
    (Sim.check_offline_nodes
        (Sim.check_offline_nodes Sim.exState 100).1 200).1.nodes_data.lookup 2 =
      some { Sim.exRecord2 with online := false } ∧
    (∃ r', (Sim.process_simulation_event (Sim.check_offline_nodes Sim.exState 100).1
        { Sim.exEvent with nodeId := some 2 } 300).nodes_data.lookup 2 = some r' ∧
      r'.online = true ∧ r'.offlineSince = none) := by
  have h := C4_offline_transition_amended
  have hs := h.1 Serial.exState 2 0 Serial.exRecord2 100
    (by simp [Serial.exState, Serial.initState]) rfl rfl rfl
    (by norm_num [Serial.NODE_OFFLINE_TIMEOUT])
  have hm := h.2 Sim.exState 2 0 Sim.exRecord2 100
    (by simp [Sim.exState, Sim.initState]) rfl rfl rfl
    (by norm_num [Sim.NODE_OFFLINE_TIMEOUT])
  refine ⟨⟨by simp [Serial.exState, Serial.initState],
      by norm_num [Serial.NODE_OFFLINE_TIMEOUT]⟩,
    hs.1, hs.2.1 200 (by norm_num [Serial.NODE_OFFLINE_TIMEOUT]),
    hs.2.2 { Serial.exEvent with nodeId := some 2 } 300 false rfl rfl (by decide),
    hm.1, hm.2.1 200 (by norm_num [Sim.NODE_OFFLINE_TIMEOUT]),
    hm.2.2 { Sim.exEvent with nodeId := some 2 } 300 (Or.inr rfl) rfl (by decide)⟩
